import Mathlib

/-!
Verification development for the quiz generation and lifecycle subsystem of an
adaptive-learning backend.

The embedding below is a shallow model of the Python sources:
  app/services/quiz_service.py   (QuizService: CRUD, generation orchestration, scoring)
  app/services/llm_service.py    (LLMService response cleaning and parsing)
  app/models/quiz.py             (Quiz, QuizAttempt documents)
  app/schemas/quiz.py            (pydantic validation schemas)

Modelling conventions:
  - MongoDB ObjectIds are modelled as natural numbers (quizzes, assets, attempts)
    and as plain strings for courses (the service compares course ids as given).
  - The document store is a record of lists; insert appends, update maps.
  - Optional string fields read with dict.get(key, "") are modelled as String,
    with the empty string standing for an absent or empty field: the code only
    ever distinguishes these values by Python truthiness, where both are falsy.
  - datetime fields are omitted: no claim under study depends on them.
  - The external generative capability (LLM) is an oracle parameter, keyed by
    module code, producing the post-parse outcome that quiz_service consumes.
  - Python float arithmetic for the attempt percentage is modelled exactly as
    IEEE-754 binary64 arithmetic over the rationals (round to nearest, ties to
    even), see roundDouble below.
-/

namespace AdaptiveQuiz

/-! ## Python string primitives -/

/-- Characters treated as whitespace by Python str.strip. -/
def pySpace (c : Char) : Bool :=
  c == ' ' || c == '\t' || c == '\n' || c == '\r' || c == Char.ofNat 11 || c == Char.ofNat 12

/-- List-level model of Python str.strip: drop whitespace from both ends. -/
def pyStripL (l : List Char) : List Char :=
  ((l.dropWhile pySpace).reverse.dropWhile pySpace).reverse

/-- Python str.strip. -/
def pyStrip (s : String) : String :=
  String.mk (pyStripL s.data)

/-- Boolean prefix test on character lists (Python str.startswith). -/
def startsWithSeq : List Char → List Char → Bool
  | [], _ => true
  | _ :: _, [] => false
  | p :: ps, c :: cs => p == c && startsWithSeq ps cs

/-- Python s.startswith(p). -/
def pyStartsWith (s p : String) : Bool :=
  startsWithSeq p.data s.data

/-- Boolean substring test on character lists (Python operator in). -/
def containsSeq (pat : List Char) : List Char → Bool
  | [] => pat.isEmpty
  | c :: cs => startsWithSeq pat (c :: cs) || containsSeq pat cs

/-- Python pat in s. -/
def pyContains (s p : String) : Bool :=
  containsSeq p.data s.data

/-- Fuel-driven model of Python s.replace(pat, ""): delete every occurrence of
pat, scanning left to right over non-overlapping matches. The fuel is the
length of the scanned list, which suffices because every step consumes at
least one character when pat is nonempty. -/
def replaceDelAux (pat : List Char) : Nat → List Char → List Char
  | _, [] => []
  | 0, l => l
  | fuel + 1, c :: cs =>
    if startsWithSeq pat (c :: cs) then
      replaceDelAux pat fuel (List.drop pat.length (c :: cs))
    else
      c :: replaceDelAux pat fuel cs

/-- Python s.replace(pat, "") on strings. -/
def pyReplaceDel (s pat : String) : String :=
  String.mk (replaceDelAux pat.data s.data.length s.data)

/-- Python truthiness of an optional string: None and the empty string are falsy. -/
def optStrTruthy : Option String → Bool
  | none => false
  | some s => s != ""

/-- Python a or b for strings: a if a is truthy (nonempty), else b. -/
def pyOrStr (a b : String) : String :=
  if a == "" then b else a

/-- Python str.lower restricted to ASCII case mapping. -/
def pyLower (s : String) : String :=
  String.mk (s.data.map Char.toLower)

/-- Python str.upper restricted to ASCII case mapping. -/
def pyUpper (s : String) : String :=
  String.mk (s.data.map Char.toUpper)

/-- Helper for pyTitle: the flag records whether the previous character was
alphabetic, in which case the next letter is lowercased instead of uppercased. -/
def pyTitleAux : Bool → List Char → List Char
  | _, [] => []
  | prevAlpha, c :: cs =>
    (if prevAlpha then c.toLower else c.toUpper) :: pyTitleAux c.isAlpha cs

/-- Python str.title restricted to ASCII words. -/
def pyTitle (s : String) : String :=
  String.mk (pyTitleAux false s.data)

/-! ## Data model (app/models/quiz.py, app/schemas/quiz.py) -/

/-- One quiz question (schema QuizQuestion). The stored documents always carry
a correct_answer value; the scorer reads it with dict.get(key, -1), so the
field is modelled as an integer. -/
structure Question where
  question : String
  options : List String
  correct_answer : Int
  explanation : Option String
deriving DecidableEq, Repr

/-- A stored quiz document (model Quiz / collection quizzes). Timestamps are
omitted; no claim under study depends on them. -/
structure Quiz where
  id : Nat
  course_id : String
  module_code : Option String
  title : String
  description : String
  difficulty : String
  questions : List Question
  total_questions : Nat
  estimated_time_minutes : Option Nat
  is_active : Bool
  is_deleted : Bool
  generated_by_ai : Bool
deriving DecidableEq, Repr

/-- Creation payload (schema QuizCreate). -/
structure QuizCreate where
  course_id : String
  module_code : Option String
  title : String
  description : String
  difficulty : String
  questions : List Question
  estimated_time_minutes : Option Nat
deriving DecidableEq, Repr

/-- One submitted answer, as built by the attempt endpoint: both fields are
always present (schema QuizAttemptAnswer). -/
structure AttemptAnswer where
  question_index : Nat
  selected_answer : Int
deriving DecidableEq, Repr

/-- A stored attempt document (model QuizAttempt / collection quiz_attempts).
Timestamps are omitted; is_completed is set on creation. -/
structure QuizAttempt where
  id : Nat
  quiz_id : Nat
  user_id : String
  user_program_id : String
  answers : List AttemptAnswer
  score : Nat
  max_score : Nat
  percentage : Nat
  is_completed : Bool
deriving DecidableEq, Repr

/-- An asset document from the assets collection. String fields read through
dict.get(key, "") are modelled as String with "" for absent; duration is kept
optional because both a missing key and a zero value are falsy in Python. The
field metadata.difficulty is flattened into difficultyMeta. -/
structure Asset where
  id : Nat
  typeField : String
  title : String
  content : String
  transcript : String
  description : String
  extracted_text : String
  summary : String
  alt_text : String
  duration : Option Nat
  difficultyMeta : String
deriving DecidableEq, Repr

/-- A module entry inside a course document; assets lists asset ids. -/
structure CourseModule where
  id : Nat
  title : String
  code : String
  assets : List Nat
deriving DecidableEq, Repr

/-- A course document from the courses collection. -/
structure Course where
  id : String
  title : String
  modules : List CourseModule
deriving DecidableEq, Repr

/-- Schema CourseModuleInfo as constructed by get_course_modules_info: every
field is produced as a plain string there. -/
structure CourseModuleInfo where
  course_id : String
  course_title : String
  module_id : String
  module_title : String
  module_code : String
  assets_content : String
deriving DecidableEq, Repr

/-- Generation request (schema QuizGenerationRequest). -/
structure QuizGenerationRequest where
  course_id : String
  module_code : Option String
  overwrite : Bool
  num_questions : Nat
  difficulty : String
deriving DecidableEq, Repr

/-- Mutable result dictionary threaded through the generation flow. -/
structure BatchResult where
  success : Bool
  message : String
  generated_quizzes : List Quiz
  skipped_modules : List String
  errors : List String
deriving DecidableEq, Repr

/-- The document store: quizzes, courses, assets and attempts collections,
plus counters standing in for fresh ObjectId generation. -/
structure DB where
  quizzes : List Quiz
  nextQuizId : Nat
  courses : List Course
  assets : List Asset
  attempts : List QuizAttempt
  nextAttemptId : Nat
deriving DecidableEq, Repr

/-- An empty document store. -/
def emptyDB : DB :=
  { quizzes := [], nextQuizId := 0, courses := [], assets := [],
    attempts := [], nextAttemptId := 0 }

/-- Update payload (schema QuizUpdate); absent fields are left unchanged.
QuizUpdate has no course_id or module_code field, so an update can never move
a quiz to another (course_id, module_code) pair. -/
structure QuizUpdate where
  title : Option String
  description : Option String
  difficulty : Option String
  questions : Option (List Question)
  estimated_time_minutes : Option Nat
  is_active : Option Bool
deriving DecidableEq, Repr

/-! ## QuizStore operations (QuizService CRUD, quiz_service.py lines 26 to 182) -/

/-- QuizService.create_quiz: unconditionally inserts a document with
is_active=True, is_deleted=False, generated_by_ai=True and
total_questions = len(questions). -/
def create_quiz (db : DB) (quiz_data : QuizCreate) : Quiz × DB :=
  let quiz : Quiz :=
    { id := db.nextQuizId
      course_id := quiz_data.course_id
      module_code := quiz_data.module_code
      title := quiz_data.title
      description := quiz_data.description
      difficulty := quiz_data.difficulty
      questions := quiz_data.questions
      total_questions := quiz_data.questions.length
      estimated_time_minutes := quiz_data.estimated_time_minutes
      is_active := true
      is_deleted := false
      generated_by_ai := true }
  (quiz, { db with quizzes := db.quizzes ++ [quiz], nextQuizId := db.nextQuizId + 1 })

/-- QuizService.get_quiz: find_one by _id only. There is no is_deleted or
is_active filter in the query, so soft-deleted quizzes are found. -/
def get_quiz (db : DB) (quiz_id : Nat) : Option Quiz :=
  db.quizzes.find? (fun q => q.id == quiz_id)

/-- QuizService.get_quizzes_by_course: query on course_id, is_active=True,
is_deleted=False; the module_code filter is added only when module_code is
truthy (Python if module_code). The created_at sort is dropped: no claim
under study depends on the ordering. -/
def get_quizzes_by_course (db : DB) (course_id : String) (module_code : Option String) :
    List Quiz :=
  db.quizzes.filter (fun q =>
    q.course_id == course_id && q.is_active && !q.is_deleted &&
      (!optStrTruthy module_code || q.module_code == module_code))

/-- QuizService.update_quiz: replaces the provided fields on the matched quiz,
recomputes total_questions when questions are replaced; returns none when no
quiz matches. -/
def update_quiz (db : DB) (quiz_id : Nat) (quiz_update : QuizUpdate) : Option Quiz × DB :=
  match db.quizzes.find? (fun q => q.id == quiz_id) with
  | none => (none, db)
  | some _ =>
    let apply := fun (q : Quiz) =>
      if q.id == quiz_id then
        let q := { q with title := quiz_update.title.getD q.title
                          description := quiz_update.description.getD q.description
                          difficulty := quiz_update.difficulty.getD q.difficulty
                          is_active := quiz_update.is_active.getD q.is_active }
        let q := match quiz_update.questions with
          | some qs => { q with questions := qs, total_questions := qs.length }
          | none => q
        match quiz_update.estimated_time_minutes with
          | some t => { q with estimated_time_minutes := some t }
          | none => q
      else q
    let db2 := { db with quizzes := db.quizzes.map apply }
    (db2.quizzes.find? (fun q => q.id == quiz_id), db2)

/-- QuizService.delete_quiz: soft delete, sets is_deleted=True and
is_active=False on the matched quiz; returns false when no quiz matches. -/
def delete_quiz (db : DB) (quiz_id : Nat) : DB × Bool :=
  match db.quizzes.find? (fun q => q.id == quiz_id) with
  | none => (db, false)
  | some _ =>
    ({ db with quizzes := db.quizzes.map (fun q =>
        if q.id == quiz_id then { q with is_deleted := true, is_active := false } else q) },
     true)

/-- QuizService.mark_existing_quizzes_as_deleted: update_many on
course_id, module_code, is_deleted=False (note: is_active is not part of the
query), setting is_deleted=True and is_active=False; returns the modified
count. -/
def mark_existing_quizzes_as_deleted (db : DB) (course_id : String)
    (module_code : Option String) : DB × Nat :=
  let matched := fun (q : Quiz) =>
    q.course_id == course_id && q.module_code == module_code && !q.is_deleted
  ({ db with quizzes := db.quizzes.map (fun q =>
      if matched q then { q with is_deleted := true, is_active := false } else q) },
   (db.quizzes.filter matched).length)

/-! ## Attempt scoring (QuizService.create_quiz_attempt, lines 571 to 618) -/

/-- The scoring loop of create_quiz_attempt: for i, answer in enumerate(answers),
the answer at position i is compared against questions[i] when i is in range;
the question_index field of the submitted answer is never read. -/
def attemptScore (questions : List Question) (answers : List AttemptAnswer) : Nat :=
  answers.enum.foldl
    (fun score ia =>
      match questions.get? ia.fst with
      | some q => if ia.snd.selected_answer == q.correct_answer then score + 1 else score
      | none => score)
    0

/-- Round the nonnegative rational a / b (with b positive) to the nearest
integer, ties to even (IEEE-754 default rounding applied to a scaled
significand). Nonnegative rationals are carried as unreduced numerator and
denominator pairs of naturals throughout the binary64 model, which keeps every
step kernel-computable. -/
def rteN (a b : Nat) : Nat :=
  let f := a / b
  let r := a % b
  if 2 * r < b then f
  else if b < 2 * r then f + 1
  else if f % 2 = 0 then f else f + 1

/-- Fuel-driven search for the binary exponent of a / b when a / b is at least
one: returns e with 2 ^ e ≤ a / b < 2 ^ (e + 1). -/
def expUpN : Nat → Nat → Nat → Nat
  | 0, _, _ => 0
  | fuel + 1, a, b => if a < 2 * b then 0 else expUpN fuel a (2 * b) + 1

/-- Fuel-driven search for the negated binary exponent of a / b when
0 < a / b < 1: returns j with 2 ^ (-j) ≤ a / b < 2 ^ (-j + 1). -/
def expDownN : Nat → Nat → Nat → Nat
  | 0, _, _ => 0
  | fuel + 1, a, b => if b ≤ a then 0 else expDownN fuel (2 * a) b + 1

/-- The nearest IEEE-754 binary64 value of the nonnegative rational a / b
(with b positive), returned as an unreduced fraction whose denominator is a
power of two: scale to a 53-bit significand and round to nearest, ties to
even. The fuel 4400 covers the full binary64 exponent range; all uses in this
development stay far inside the normal range, so subnormals and overflow need
no treatment. -/
def roundDoubleN (a b : Nat) : Nat × Nat :=
  if a = 0 then (0, 1)
  else if b ≤ a then
    let e := expUpN 4400 a b
    if e ≤ 52 then
      let k := 52 - e
      (rteN (a * 2 ^ k) b, 2 ^ k)
    else
      let j := e - 52
      (rteN a (b * 2 ^ j) * 2 ^ j, 1)
  else
    let j := expDownN 4400 a b
    let k := 52 + j
    (rteN (a * 2 ^ k) b, 2 ^ k)

/-- The percentage computation of create_quiz_attempt:
int((score / max_score) * 100) if max_score > 0 else 0. Python evaluates
score / max_score as the correctly rounded binary64 quotient, multiplies by
100 with one more correctly rounded binary64 operation, and int() truncates;
the value is nonnegative, so truncation is the floor, here a natural
division. -/
def pctFloat (score maxScore : Nat) : Nat :=
  if 0 < maxScore then
    let d1 := roundDoubleN score maxScore
    let d2 := roundDoubleN (d1.1 * 100) d1.2
    d2.1 / d2.2
  else 0

/-- QuizService.create_quiz_attempt: fetch the quiz through get_quiz (raising
ValueError, modelled as none, when absent), score positionally, compute the
percentage, store the completed attempt. On none the store is unchanged. -/
def create_quiz_attempt (db : DB) (user_id : String) (quiz_id : Nat)
    (user_program_id : String) (answers : List AttemptAnswer) :
    Option QuizAttempt × DB :=
  match get_quiz db quiz_id with
  | none => (none, db)
  | some quiz =>
    let score := attemptScore quiz.questions answers
    let maxScore := quiz.questions.length
    let attempt : QuizAttempt :=
      { id := db.nextAttemptId
        quiz_id := quiz_id
        user_id := user_id
        user_program_id := user_program_id
        answers := answers
        score := score
        max_score := maxScore
        percentage := pctFloat score maxScore
        is_completed := true }
    (some attempt,
     { db with attempts := db.attempts ++ [attempt], nextAttemptId := db.nextAttemptId + 1 })

/-- Modelled from the spec: the scoring rule as the specification states it,
keyed by the question_index field of each submitted answer (spec section 4.6).
This definition exists only to be compared with attemptScore, the scorer
embedded from the source. -/
def scoreByQuestionIndex (questions : List Question) (answers : List AttemptAnswer) : Nat :=
  answers.foldl
    (fun score a =>
      match questions.get? a.question_index with
      | some q => if a.selected_answer == q.correct_answer then score + 1 else score
      | none => score)
    0

/-- Modelled from the spec: the exact floor percentage
floor(score / max_score * 100) when max_score > 0, else 0 (spec section 3).
This definition exists only to be compared with pctFloat, the binary64
computation embedded from the source. -/
def pctFloorSpec (score maxScore : Nat) : Nat :=
  if 0 < maxScore then score * 100 / maxScore else 0

/-! ## Asset content extraction (QuizService._get_module_assets_content,
quiz_service.py lines 468 to 568) -/

/-- Python truthiness of an optional number: None and zero are falsy. -/
def optNatTruthy : Option Nat → Bool
  | none => false
  | some n => n != 0

/-- The per-type extraction chain (lines 494 to 539): dispatch on the
lowercased asset type, with the ordered fallbacks written as Python or
chains, and the duration suffix appended when the duration value is truthy. -/
def assetTypeContent (a : Asset) : String :=
  let asset_type := pyLower a.typeField
  if asset_type == "text" then a.content
  else if asset_type == "video" then
    let c := pyOrStr a.transcript (pyOrStr a.description (pyOrStr a.content
      ("Video content: " ++ a.title)))
    if optNatTruthy a.duration then
      c ++ " (Duration: " ++ toString (a.duration.getD 0 / 60) ++ " minutes)"
    else c
  else if asset_type == "pdf" then
    pyOrStr a.extracted_text (pyOrStr a.summary (pyOrStr a.content
      ("PDF document: " ++ a.title)))
  else if asset_type == "audio" then
    let c := pyOrStr a.transcript (pyOrStr a.description (pyOrStr a.content
      ("Audio content: " ++ a.title)))
    if optNatTruthy a.duration then
      c ++ " (Duration: " ++ toString (a.duration.getD 0 / 60) ++ " minutes)"
    else c
  else if asset_type == "image" then
    pyOrStr a.description (pyOrStr a.alt_text (pyOrStr a.content
      ("Image: " ++ a.title)))
  else
    pyOrStr a.content (pyTitle asset_type ++ ": " ++ a.title)

/-- The additional context appends (lines 541 to 550): a Description line when
a description exists, the type is not image and the content is not already
that description, then a Difficulty line when difficulty metadata exists. -/
def assetBlockContent (a : Asset) : String :=
  let asset_type := pyLower a.typeField
  let content := assetTypeContent a
  let content :=
    if a.description != "" && asset_type != "image" && content != a.description then
      content ++ "\nDescription: " ++ a.description
    else content
  if a.difficultyMeta != "" then content ++ "\nDifficulty: " ++ a.difficultyMeta
  else content

/-- One asset block (lines 552 to 557): dropped when the content is empty or
whitespace, otherwise headed by Asset (TYPE): title and stripped. -/
def extractAssetBlock (a : Asset) : Option String :=
  let content := assetBlockContent a
  if pyStrip content != "" then
    some ("Asset (" ++ pyUpper (pyLower a.typeField) ++ "): " ++ a.title ++ "\n"
      ++ pyStrip content)
  else none

/-- The 50-character banner used by the extractor output. -/
def eqBanner : String :=
  String.mk (List.replicate 50 '=')

/-- QuizService._get_module_assets_content: resolve the asset ids against the
assets collection (in storage order, as the Mongo $in query returns them),
build one block per asset, drop empty blocks, and concatenate. ObjectId parse
failures for malformed id strings are not representable here since ids are
naturals. -/
def get_module_assets_content (db : DB) (asset_ids : List Nat) : String :=
  if asset_ids.isEmpty then ""
  else
    let found := db.assets.filter (fun a => asset_ids.contains a.id)
    let blocks := found.filterMap extractAssetBlock
    if blocks.isEmpty then ""
    else "\n\n" ++ eqBanner ++ String.intercalate ("\n\n") blocks ++ "\n\n" ++ eqBanner

/-- QuizService.get_course_modules_info (lines 409 to 466): resolve the course
by id, then either the single module matching a truthy module_code (empty
list when absent) or all modules in course order. The Unknown Course and
Unknown Module dict.get defaults collapse into the stored strings here. -/
def get_course_modules_info (db : DB) (course_id : String)
    (module_code : Option String) : List CourseModuleInfo :=
  match db.courses.find? (fun c => c.id == course_id) with
  | none => []
  | some course =>
    if optStrTruthy module_code then
      match course.modules.find? (fun m => m.code == module_code.getD ("")) with
      | some tm =>
        [{ course_id := course_id
           course_title := course.title
           module_id := toString tm.id
           module_title := tm.title
           module_code := tm.code
           assets_content := get_module_assets_content db tm.assets }]
      | none => []
    else
      course.modules.map (fun m =>
        { course_id := course_id
          course_title := course.title
          module_id := toString m.id
          module_title := m.title
          module_code := m.code
          assets_content := get_module_assets_content db m.assets })

/-! ## Quiz generation (quiz_service.py lines 184 to 407) -/

/-- Outcome of one call to the external generative capability, as consumed by
generate_quiz_for_module after llm_service parsing: failure models
response.success = False (provider error or timeout); invalid models a
success response whose result dict carries no questions key (for instance the
parse-error dict built by llm_service); quizData models a parsed and
validated QuizMCQ dict, which always carries a title. -/
inductive LLMResult where
  | failure
  | invalid
  | quizData (title : String) (questions : List Question)
deriving DecidableEq, Repr

/-- The pydantic validation performed when a QuizCreate payload is
constructed (schemas QuizCreate, QuizBase, QuizQuestion): a 24-character
course id, a title of at most 255 characters, a difficulty from the fixed
pattern, at least one question, 2 to 6 options per question with the correct
answer index in range, and an estimated time of at least one minute when
given. A failed validation raises, which generate_quiz_for_module catches. -/
def quizCreateValid (qc : QuizCreate) : Bool :=
  qc.course_id.length == 24 &&
  qc.title.length ≤ 255 &&
  (qc.difficulty == "easy" || qc.difficulty == "medium" || qc.difficulty == "hard") &&
  !qc.questions.isEmpty &&
  qc.questions.all (fun q =>
    2 ≤ q.options.length && q.options.length ≤ 6 &&
    0 ≤ q.correct_answer && q.correct_answer < (q.options.length : Int)) &&
  (match qc.estimated_time_minutes with
   | some t => 1 ≤ t
   | none => true)

/-- QuizService.generate_quiz_for_module (lines 185 to 242): on a usable LLM
outcome, build a QuizCreate with estimated_time_minutes twice the question
count and persist it through create_quiz; any failure (LLM error, missing
questions key, validation error) yields none and leaves the store unchanged.
The module_content and num_questions arguments shape only the prompt, which
lives inside the oracle outcome here. -/
def generate_quiz_for_module (db : DB) (course_id : String)
    (module_code : Option String) (module_content : String) (module_title : String)
    (num_questions : Nat) (difficulty : String) (llmOutcome : LLMResult) :
    Option Quiz × DB :=
  match llmOutcome with
  | .failure => (none, db)
  | .invalid => (none, db)
  | .quizData title questions =>
    let quiz_create : QuizCreate :=
      { course_id := course_id
        module_code := module_code
        title := title
        description := "Auto-generated quiz for module: " ++ module_title
        difficulty := difficulty
        questions := questions
        estimated_time_minutes := some (questions.length * 2) }
    if quizCreateValid quiz_create then
      let created := create_quiz db quiz_create
      (some created.1, created.2)
    else (none, db)

/-- QuizService._generate_quiz_for_single_module (lines 288 to 338). The
oracle is keyed by module code. -/
def generate_quiz_for_single_module (db : DB) (request : QuizGenerationRequest)
    (module_info : CourseModuleInfo) (result : BatchResult)
    (llm : String → LLMResult) : BatchResult × DB :=
  let existing_quiz := get_quizzes_by_course db request.course_id request.module_code
  if !existing_quiz.isEmpty && !request.overwrite then
    ({ result with
        skipped_modules := result.skipped_modules ++ [request.module_code.getD ("")]
        message := "Quiz already exists for this module. Use overwrite=true to regenerate." },
     db)
  else
    let db1 :=
      if !existing_quiz.isEmpty && request.overwrite then
        (mark_existing_quizzes_as_deleted db request.course_id request.module_code).1
      else db
    let generated := generate_quiz_for_module db1 request.course_id request.module_code
      (pyOrStr module_info.assets_content ("")) (pyOrStr module_info.module_title ("Module"))
      request.num_questions request.difficulty (llm (request.module_code.getD ("")))
    match generated.1 with
    | some quiz =>
      ({ result with
          generated_quizzes := result.generated_quizzes ++ [quiz]
          message := "Quiz generated successfully" },
       generated.2)
    | none =>
      ({ result with
          errors := result.errors ++
            ["Failed to generate quiz for module " ++ request.module_code.getD ("")]
          success := false },
       generated.2)

/-- Loop state of _generate_quizzes_for_all_modules: the store, the result
dict, and the generated and skipped counters. -/
structure AllModulesState where
  db : DB
  result : BatchResult
  generated_count : Nat
  skipped_count : Nat

/-- One iteration of the loop in _generate_quizzes_for_all_modules (lines 352
to 388): falsy module codes are passed over, an existing current batch skips
or is soft-deleted according to overwrite, and a failed generation appends an
error without touching the success flag. -/
def processModule (request : QuizGenerationRequest) (llm : String → LLMResult)
    (st : AllModulesState) (module_info : CourseModuleInfo) : AllModulesState :=
  if module_info.module_code == "" then st
  else
    let existing_quiz :=
      get_quizzes_by_course st.db request.course_id (some module_info.module_code)
    if !existing_quiz.isEmpty && !request.overwrite then
      { st with
          result := { st.result with
            skipped_modules := st.result.skipped_modules ++ [module_info.module_code] }
          skipped_count := st.skipped_count + 1 }
    else
      let db1 :=
        if !existing_quiz.isEmpty && request.overwrite then
          (mark_existing_quizzes_as_deleted st.db request.course_id
            (some module_info.module_code)).1
        else st.db
      let generated := generate_quiz_for_module db1 request.course_id
        (some module_info.module_code) (pyOrStr module_info.assets_content (""))
        (pyOrStr module_info.module_title ("Module " ++ module_info.module_code))
        request.num_questions request.difficulty (llm module_info.module_code)
      match generated.1 with
      | some quiz =>
        { st with
            db := generated.2
            result := { st.result with
              generated_quizzes := st.result.generated_quizzes ++ [quiz] }
            generated_count := st.generated_count + 1 }
      | none =>
        { st with
            db := generated.2
            result := { st.result with
              errors := st.result.errors ++
                ["Failed to generate quiz for module " ++ module_info.module_code] } }

/-- QuizService._generate_quizzes_for_all_modules (lines 340 to 407): fold the
per-module step over the modules, then compose the message; the success flag
is cleared only when nothing was generated and nothing was skipped. -/
def generate_quizzes_for_all_modules (db : DB) (request : QuizGenerationRequest)
    (modules_info : List CourseModuleInfo) (result : BatchResult)
    (llm : String → LLMResult) : BatchResult × DB :=
  let st := modules_info.foldl (processModule request llm)
    { db := db, result := result, generated_count := 0, skipped_count := 0 }
  let r := st.result
  if 0 < st.generated_count then
    ({ r with message :=
        "Generated " ++ toString st.generated_count ++ " quizzes" ++
          (if 0 < st.skipped_count then
            ", skipped " ++ toString st.skipped_count ++ " existing quizzes"
          else "") },
     st.db)
  else if 0 < st.skipped_count then
    ({ r with message :=
        "Skipped " ++ toString st.skipped_count ++
          " existing quizzes. Use overwrite=true to regenerate." },
     st.db)
  else
    ({ r with success := false, message := "No quizzes were generated" }, st.db)

/-- QuizService.generate_quizzes_for_course (lines 244 to 286): resolve the
course and modules, fail when resolution is empty, and dispatch on the
truthiness of module_code to the single-module or all-modules flow. -/
def generate_quizzes_for_course (db : DB) (request : QuizGenerationRequest)
    (llm : String → LLMResult) : BatchResult × DB :=
  let result : BatchResult :=
    { success := true, message := "", generated_quizzes := [],
      skipped_modules := [], errors := [] }
  let course_info := get_course_modules_info db request.course_id request.module_code
  if course_info.isEmpty then
    ({ result with success := false, message := "Course or module not found" }, db)
  else if optStrTruthy request.module_code then
    generate_quiz_for_single_module db request (course_info.headD
      { course_id := "", course_title := "", module_id := "", module_title := "",
        module_code := "", assets_content := "" }) result llm
  else
    generate_quizzes_for_all_modules db request course_info result llm

/-! ## LLM response cleaning and parsing (llm_service.py lines 379 to 435) -/

/-- The markdown cleaning applied by LLMService._parse_response before JSON
parsing (lines 401 to 405). Note that Python str.replace substitutes every
occurrence in the whole string, not only a leading or trailing fence. -/
def cleanQuizContent (content : String) : String :=
  let cleaned := pyStrip content
  if pyStartsWith cleaned ("```json") then
    pyStrip (pyReplaceDel (pyReplaceDel cleaned ("```json")) ("```"))
  else if pyStartsWith cleaned ("```") then
    pyStrip (pyReplaceDel cleaned ("```"))
  else cleaned

/-- JSON values, as produced by json.loads on the subset of JSON exercised by
quiz payloads (integer numerals; no floating point literals). -/
inductive Json where
  | null
  | boolVal (b : Bool)
  | num (n : Int)
  | str (s : String)
  | arr (elems : List Json)
  | obj (fields : List (String × Json))

/-- The opening brace character. -/
def lbrace : Char := Char.ofNat 123

/-- The closing brace character. -/
def rbrace : Char := Char.ofNat 125

/-- JSON insignificant whitespace. -/
def jsonWs (c : Char) : Bool :=
  c == ' ' || c == '\t' || c == '\n' || c == '\r'

/-- Drop insignificant whitespace. -/
def skipWs (l : List Char) : List Char :=
  l.dropWhile jsonWs

/-- Parse the body of a JSON string literal after the opening quote, handling
the simple escapes; returns the content and the input after the closing
quote. -/
def parseStrAux : Nat → List Char → Option (List Char × List Char)
  | _, [] => none
  | 0, _ => none
  | fuel + 1, c :: cs =>
    if c == '"' then some ([], cs)
    else if c == '\\' then
      match cs with
      | [] => none
      | e :: cs2 =>
        let dec : Option Char :=
          if e == '"' then some '"'
          else if e == '\\' then some '\\'
          else if e == '/' then some '/'
          else if e == 'n' then some '\n'
          else if e == 't' then some '\t'
          else if e == 'r' then some '\r'
          else none
        match dec with
        | none => none
        | some d => (parseStrAux fuel cs2).map (fun p => (d :: p.1, p.2))
    else (parseStrAux fuel cs).map (fun p => (c :: p.1, p.2))

/-- Accumulate a run of decimal digits. -/
def parseDigitsAux : List Char → Nat → Nat × List Char
  | [], acc => (acc, [])
  | c :: cs, acc =>
    if c.isDigit then parseDigitsAux cs (acc * 10 + (c.toNat - 48)) else (acc, c :: cs)

/-- Recursive descent JSON parser, modelling json.loads on the subset needed
here. The fuel bounds the recursion; array and object continuations recurse
by reopening the bracket on the remaining input, so every recursive call has
consumed at least one character of the original input and the input length
plus one is always enough fuel. -/
def parseVal : Nat → List Char → Option (Json × List Char)
  | 0, _ => none
  | fuel + 1, input =>
    match skipWs input with
    | [] => none
    | c :: cs =>
      if c == lbrace then
        match skipWs cs with
        | [] => none
        | d :: ds =>
          if d == rbrace then some (.obj [], ds)
          else if d == '"' then
            match parseStrAux ds.length ds with
            | none => none
            | some (key, rest1) =>
              match skipWs rest1 with
              | ':' :: rest2 =>
                match parseVal fuel rest2 with
                | none => none
                | some (v, rest3) =>
                  match skipWs rest3 with
                  | [] => none
                  | e :: rest4 =>
                    if e == ',' then
                      match parseVal fuel (lbrace :: rest4) with
                      | some (.obj fields, rest5) =>
                        some (.obj ((String.mk key, v) :: fields), rest5)
                      | _ => none
                    else if e == rbrace then
                      some (.obj [(String.mk key, v)], rest4)
                    else none
              | _ => none
          else none
      else if c == '[' then
        match skipWs cs with
        | [] => none
        | d :: ds =>
          if d == ']' then some (.arr [], ds)
          else
            match parseVal fuel (d :: ds) with
            | none => none
            | some (v, rest1) =>
              match skipWs rest1 with
              | ',' :: rest2 =>
                match parseVal fuel ('[' :: rest2) with
                | some (.arr elems, rest3) => some (.arr (v :: elems), rest3)
                | _ => none
              | ']' :: rest2 => some (.arr [v], rest2)
              | _ => none
      else if c == '"' then
        (parseStrAux cs.length cs).map (fun p => (Json.str (String.mk p.1), p.2))
      else if c == 't' then
        if startsWithSeq ['r', 'u', 'e'] cs then some (.boolVal true, cs.drop 3) else none
      else if c == 'f' then
        if startsWithSeq ['a', 'l', 's', 'e'] cs then some (.boolVal false, cs.drop 4)
        else none
      else if c == 'n' then
        if startsWithSeq ['u', 'l', 'l'] cs then some (.null, cs.drop 3) else none
      else if c == '-' then
        match cs with
        | d :: _ =>
          if d.isDigit then
            let pd := parseDigitsAux cs 0
            some (.num (-(pd.1 : Int)), pd.2)
          else none
        | [] => none
      else if c.isDigit then
        let pd := parseDigitsAux (c :: cs) 0
        some (.num (pd.1 : Int), pd.2)
      else none

/-- Modelled after Python json.loads restricted to the subset above: parse one
value and require only whitespace to remain. -/
def jsonLoads (s : String) : Option Json :=
  match parseVal (s.data.length + 1) s.data with
  | some (v, rest) => if (skipWs rest).isEmpty then some v else none
  | none => none

/-- The validated quiz shape (pydantic model QuizMCQ in llm_service.py):
title, at least one question, optional difficulty defaulting to medium. -/
structure QuizMCQ where
  title : String
  questions : List Question
  difficulty : Option String
deriving DecidableEq, Repr

/-- Look up a key in a parsed JSON object. -/
def lookupField (fields : List (String × Json)) (key : String) : Option Json :=
  (fields.find? (fun f => f.1 == key)).map (fun f => f.2)

/-- Validation of one question object (pydantic model QuizQuestion in
llm_service.py): 2 to 6 options and a nonnegative correct_answer. Note this
model imposes no upper bound of correct_answer against the option count. -/
def jsonToQuestion (j : Json) : Option Question :=
  match j with
  | .obj fields =>
    match lookupField fields ("question"), lookupField fields ("options"),
        lookupField fields ("correct_answer") with
    | some (.str q), some (.arr opts), some (.num ca) =>
      match opts.mapM (fun o => match o with | .str s => some s | _ => none) with
      | none => none
      | some os =>
        if 2 ≤ os.length ∧ os.length ≤ 6 ∧ 0 ≤ ca then
          some { question := q, options := os, correct_answer := ca,
                 explanation :=
                   match lookupField fields ("explanation") with
                   | some (.str e) => some e
                   | _ => none }
        else none
    | _, _, _ => none
  | _ => none

/-- Validation of the whole quiz object (pydantic model QuizMCQ). -/
def jsonToQuizMCQ (j : Json) : Option QuizMCQ :=
  match j with
  | .obj fields =>
    match lookupField fields ("title"), lookupField fields ("questions") with
    | some (.str t), some (.arr qs) =>
      match qs.mapM jsonToQuestion with
      | none => none
      | some questions =>
        if questions.isEmpty then none
        else
          match lookupField fields ("difficulty") with
          | some (.str d) => some { title := t, questions := questions, difficulty := some d }
          | some .null => some { title := t, questions := questions, difficulty := none }
          | none => some { title := t, questions := questions, difficulty := some ("medium") }
          | some _ => none
    | _, _ => none
  | _ => none

/-- Parse a cleaned response text into a validated QuizMCQ. -/
def parseQuizMCQ (s : String) : Option QuizMCQ :=
  (jsonLoads s).bind jsonToQuizMCQ

/-- The QUIZ_MCQ branch of LLMService._parse_response (lines 393 to 414):
empty or whitespace content and every parse or validation failure produce an
error dictionary, modelled as none; otherwise the content is cleaned of
markdown fences and parsed. -/
def parseQuizResponse (content : String) : Option QuizMCQ :=
  if pyStrip content == "" then none
  else parseQuizMCQ (cleanQuizContent content)

/-- Wrap a text in a json markdown fence. -/
def wrapJsonFence (t : String) : String :=
  "```json\n" ++ t ++ "\n```"

/-- Wrap a text in a plain markdown fence. -/
def wrapPlainFence (t : String) : String :=
  "```\n" ++ t ++ "\n```"

/-! ## Invariant under study and concrete instances -/

/-- The quizzes that form the current batch of a (course_id, module_code)
pair: active and not deleted. -/
def currentBatch (db : DB) (course_id : String) (module_code : Option String) :
    List Quiz :=
  db.quizzes.filter (fun q =>
    q.course_id == course_id && q.module_code == module_code &&
    q.is_active && !q.is_deleted)

/-- The uniqueness invariant of spec section 3: every (course_id, module_code)
pair has at most one active, non-deleted quiz. -/
def slotInvariant (db : DB) : Prop :=
  ∀ course_id module_code, (currentBatch db course_id module_code).length ≤ 1

/-- The backtick character. -/
def btick : Char := Char.ofNat 96

/-- A 24-character course id, as the schemas require. -/
def cid24 : String := "c23456789012345678901234"

/-- A valid question whose correct answer is option 0. -/
def questionA : Question :=
  { question := "q", options := ["a", "b"], correct_answer := 0, explanation := none }

/-- A valid question whose correct answer is option 1. -/
def questionB : Question :=
  { question := "r", options := ["a", "b"], correct_answer := 1, explanation := none }

/-- An active stored quiz with two questions whose correct answers are 0 and 1. -/
def quizTwoQ : Quiz :=
  { id := 5, course_id := cid24, module_code := some ("M1"), title := "T",
    description := "", difficulty := "medium", questions := [questionA, questionB],
    total_questions := 2, estimated_time_minutes := some 10,
    is_active := true, is_deleted := false, generated_by_ai := true }

/-- A store holding only quizTwoQ. -/
def dbTwoQ : DB :=
  { emptyDB with quizzes := [quizTwoQ], nextQuizId := 6 }

/-- A single submitted answer whose question_index field points at question 1
and selects option 1 (the correct answer of question 1, not of question 0). -/
def answersIdx : List AttemptAnswer :=
  [{ question_index := 1, selected_answer := 1 }]

/-- A soft-deleted quiz. -/
def deletedQuiz : Quiz :=
  { quizTwoQ with id := 1, is_active := false, is_deleted := true }

/-- A store whose only quiz is soft-deleted. -/
def dbDeleted : DB :=
  { emptyDB with quizzes := [deletedQuiz], nextQuizId := 2 }

/-- A quiz with one hundred questions, each with correct answer 0. -/
def quizBig : Quiz :=
  { quizTwoQ with
    id := 9
    questions := List.replicate 100 questionA
    total_questions := 100 }

/-- A store holding quizBig. -/
def dbBig : DB :=
  { emptyDB with quizzes := [quizBig], nextQuizId := 10 }

/-- Twenty nine correct answers against quizBig. -/
def answers29 : List AttemptAnswer :=
  List.replicate 29 ({ question_index := 0, selected_answer := 0 })

/-- A valid creation payload for the pair (cid24, M1). -/
def qcA : QuizCreate :=
  { course_id := cid24, module_code := some ("M1"), title := "T",
    description := "", difficulty := "medium", questions := [questionA],
    estimated_time_minutes := some 10 }

/-- A course with two modules coded A and B and no assets. -/
def courseC : Course :=
  { id := cid24, title := "C",
    modules := [{ id := 1, title := "MA", code := "A", assets := [] },
                { id := 2, title := "MB", code := "B", assets := [] }] }

/-- An active quiz for the pair (cid24, A). -/
def quizModA : Quiz :=
  { quizTwoQ with id := 3, module_code := some ("A") }

/-- A store with courseC and an existing current batch for module A only. -/
def dbBatch : DB :=
  { emptyDB with quizzes := [quizModA], nextQuizId := 4, courses := [courseC] }

/-- A batch generation request over all modules without overwrite. -/
def reqAll : QuizGenerationRequest :=
  { course_id := cid24, module_code := none, overwrite := false,
    num_questions := 5, difficulty := "medium" }

/-- A single-module generation request for module A without overwrite. -/
def reqSingleA : QuizGenerationRequest :=
  { course_id := cid24, module_code := some ("A"), overwrite := false,
    num_questions := 5, difficulty := "medium" }

/-- An oracle that always fails. -/
def llmFail : String → LLMResult := fun _ => .failure

/-- An oracle outcome carrying one valid question. -/
def llmGood : LLMResult := .quizData ("T") [questionA]

/-- A raw generation output whose title value contains a triple backtick. -/
def tFence : String :=
  "\x7b\"title\": \"a```b\", \"questions\": [\x7b\"question\": \"q\", \"options\": [\"x\", \"y\"], \"correct_answer\": 0\x7d], \"difficulty\": \"easy\"\x7d"

/-- A raw generation output without backticks. -/
def tNoTick : String :=
  "\x7b\"title\": \"T\", \"questions\": [\x7b\"question\": \"q\", \"options\": [\"x\", \"y\"], \"correct_answer\": 1, \"explanation\": \"e\"\x7d]\x7d"

/-- A video asset with a transcript and a duration of zero seconds. -/
def vidZero : Asset :=
  { id := 1, typeField := "video", title := "V", content := "",
    transcript := "T", description := "", extracted_text := "", summary := "",
    alt_text := "", duration := some 0, difficultyMeta := "" }

/-- A video asset with a transcript and a duration of 125 seconds. -/
def vidDur : Asset :=
  { vidZero with duration := some 125 }

/-- The quiz that generate_quiz_for_module persists for llmGood on an empty
store. -/
def quizGen : Quiz :=
  { id := 0, course_id := cid24, module_code := some ("M1"), title := "T",
    description := "Auto-generated quiz for module: MT", difficulty := "medium",
    questions := [questionA], total_questions := 1,
    estimated_time_minutes := some 2, is_active := true, is_deleted := false,
    generated_by_ai := true }

/-- An update payload that only deactivates a quiz (QuizUpdate.is_active). -/
def updDeactivate : QuizUpdate :=
  { title := none, description := none, difficulty := none, questions := none,
    estimated_time_minutes := none, is_active := some false }

/-- An update payload that only reactivates a quiz (QuizUpdate.is_active). -/
def updReactivate : QuizUpdate :=
  { title := none, description := none, difficulty := none, questions := none,
    estimated_time_minutes := none, is_active := some true }

/-- Create quiz 0 for (cid24, M1) on the empty store. -/
def dbUpd0 : DB := (create_quiz emptyDB qcA).2

/-- Deactivate quiz 0 through update_quiz: inactive but not deleted. -/
def dbUpd1 : DB := (update_quiz dbUpd0 0 updDeactivate).2

/-- Create quiz 1 for the same pair: the slot again has one active quiz. -/
def dbUpd2 : DB := (create_quiz dbUpd1 qcA).2

/-- Reactivate quiz 0 through update_quiz: two active quizzes in the slot. -/
def dbUpd3 : DB := (update_quiz dbUpd2 0 updReactivate).2

/-! ## Theorems -/

set_option maxRecDepth 1000000

/-- C10: every quiz persisted through create_quiz is stored with
generated_by_ai = true, is_active = true and is_deleted = false, whatever the
creation payload; the manual create endpoint passes its payload straight to
create_quiz, so manually created quizzes are indistinguishable from generated
ones by the generated_by_ai flag. -/
theorem create_quiz_always_ai_active (db : DB) (quiz_data : QuizCreate) :
    (create_quiz db quiz_data).1.generated_by_ai = true ∧
    (create_quiz db quiz_data).1.is_active = true ∧
    (create_quiz db quiz_data).1.is_deleted = false ∧
    (create_quiz db quiz_data).1 ∈ (create_quiz db quiz_data).2.quizzes := by
  refine ⟨rfl, rfl, rfl, ?_⟩
  simp [create_quiz]

/-- C9: whenever the generation path persists a quiz, its estimated time in
minutes is exactly two times the number of generated questions, and the quiz
is stored. -/
theorem generation_estimated_time (db : DB) (course_id : String)
    (module_code : Option String) (module_content module_title : String)
    (num_questions : Nat) (difficulty : String) (llmOutcome : LLMResult) (q : Quiz)
    (h : (generate_quiz_for_module db course_id module_code module_content
      module_title num_questions difficulty llmOutcome).1 = some q) :
    q.estimated_time_minutes = some (2 * q.questions.length) ∧
    q ∈ (generate_quiz_for_module db course_id module_code module_content
      module_title num_questions difficulty llmOutcome).2.quizzes := by
  cases llmOutcome with
  | failure => simp [generate_quiz_for_module] at h
  | invalid => simp [generate_quiz_for_module] at h
  | quizData title questions =>
    simp only [generate_quiz_for_module] at h ⊢
    split at h
    next hv =>
      rw [Option.some.injEq] at h
      subst h
      exact ⟨by simp [create_quiz, Nat.mul_comm], by simp [hv, create_quiz]⟩
    next hv => simp at h

/-- C9 witness: a concrete generation on the empty store persists a quiz with
one question and an estimated time of two minutes. -/
theorem generation_estimated_time_witness :
    quizGen.estimated_time_minutes = some (2 * quizGen.questions.length) ∧
    quizGen ∈ (generate_quiz_for_module emptyDB cid24 (some ("M1")) ("") ("MT") 5
      ("medium") llmGood).2.quizzes :=
  generation_estimated_time emptyDB cid24 (some ("M1")) ("") ("MT") 5 ("medium")
    llmGood quizGen (by decide)

/-- C3 counterexample: the store holds exactly one quiz, which is soft-deleted,
yet create_attempt succeeds on it and records an attempt, because get_quiz
queries by id only; the claim says it must fail with NotFound there. -/
theorem soft_deleted_attempt_counterexample :
    deletedQuiz.is_deleted = true ∧
    get_quiz dbDeleted 1 = some deletedQuiz ∧
    ((create_quiz_attempt dbDeleted ("u") 1 ("p") answersIdx).1).isSome = true ∧
    (create_quiz_attempt dbDeleted ("u") 1 ("p") answersIdx).2.attempts.length = 1 := by
  decide

/-- C3 amended: create_attempt fails with NotFound exactly when the quiz id is
absent from the quizzes collection; soft-deleted quizzes are still fetched
(get_quiz has no is_deleted filter) and attempts are recorded against them.
When the quiz is absent, no attempt record is created. -/
theorem create_attempt_not_found_iff (db : DB) (user_id : String) (quiz_id : Nat)
    (user_program_id : String) (answers : List AttemptAnswer) :
    ((create_quiz_attempt db user_id quiz_id user_program_id answers).1 = none ↔
      get_quiz db quiz_id = none) ∧
    (get_quiz db quiz_id = none →
      (create_quiz_attempt db user_id quiz_id user_program_id answers).2 = db) := by
  unfold create_quiz_attempt
  cases h : get_quiz db quiz_id <;> simp

/-- C3 amended witness: on the empty store the attempt fails and the store is
unchanged. -/
theorem create_attempt_not_found_iff_witness :
    (create_quiz_attempt emptyDB ("u") 0 ("p") []).2 = emptyDB :=
  (create_attempt_not_found_iff emptyDB ("u") 0 ("p") []).2 (by decide)

/-- C7 failing input: a quiz with one hundred questions of which twenty nine
are answered correctly. The binary64 evaluation of int((29 / 100) * 100)
truncates to 28, while the specified floor(score / max_score * 100) is 29.
The concrete example of the claim (2 of 3 gives 66) does hold. -/
theorem percentage_truncation_failing_input :
    ((create_quiz_attempt dbBig ("u") 9 ("p") answers29).1.map
      (fun a => (a.score, a.max_score, a.percentage))) = some (29, 100, 28) ∧
    pctFloorSpec 29 100 = 29 ∧
    pctFloat 2 3 = 66 ∧ pctFloorSpec 2 3 = 66 := by
  decide

/-- C1 counterexample: one answer whose question_index field is 1 and whose
selection equals the correct answer of question 1. Scoring by question_index
as the claim states gives 1; the code scores by list position (position 0
against question 0) and gives 0. -/
theorem scoring_claim_counterexample :
    scoreByQuestionIndex quizTwoQ.questions answersIdx = 1 ∧
    ((create_quiz_attempt dbTwoQ ("u") 5 ("p") answersIdx).1.map
      (fun a => a.score)) = some 0 := by
  decide

/-- Helper: the scoring fold of create_quiz_attempt, started at position n,
counts the positional matches of the answers against the questions from
position n on. -/
theorem attemptScore_enumFrom (questions : List Question) :
    ∀ (answers : List AttemptAnswer) (n acc : Nat),
      (List.enumFrom n answers).foldl
        (fun score ia =>
          match questions.get? ia.fst with
          | some q => if ia.snd.selected_answer == q.correct_answer then score + 1 else score
          | none => score) acc =
      acc + (answers.zip (questions.drop n)).countP
        (fun p => p.1.selected_answer == p.2.correct_answer) := by
  intro answers
  induction answers with
  | nil => intro n acc; simp
  | cons a as ih =>
    intro n acc
    simp only [List.enumFrom, List.foldl_cons]
    cases hq : questions.get? n with
    | none =>
      have hlen : questions.length ≤ n := by
        simpa using List.get?_eq_none.mp hq
      have hdrop : questions.drop n = [] := List.drop_eq_nil_of_le hlen
      have hdrop2 : questions.drop (n + 1) = [] := List.drop_eq_nil_of_le (by omega)
      rw [ih (n + 1) acc]
      simp [hq, hdrop, hdrop2]
    | some q =>
      have hn : n < questions.length := by
        by_contra hcon
        rw [List.get?_eq_none.mpr (by omega)] at hq
        exact Option.noConfusion hq
      have hgq : questions[n] = q := by
        have h1 : questions.get? n = some questions[n] := by
          rw [List.get?_eq_getElem?]
          exact List.getElem?_eq_getElem hn
        rw [hq] at h1
        exact ((Option.some.injEq _ _).mp h1).symm
      have hdrop : questions.drop n = q :: questions.drop (n + 1) := by
        rw [List.drop_eq_getElem_cons hn, hgq]
      rw [ih (n + 1)]
      simp only [hq, hdrop, List.zip_cons_cons, List.countP_cons]
      by_cases hsel : (a.selected_answer == q.correct_answer) = true
      · simp [hsel]
        omega
      · simp only [Bool.not_eq_true] at hsel
        simp [hsel]

/-- C1 amended: create_attempt scores positionally: the answer at list
position i is compared with questions[i] (counting a point exactly when they
agree, over the common length of the two lists), and the question_index field
of the submitted answers is never consulted: rewriting it arbitrarily leaves
the score unchanged. -/
theorem attempt_scoring_positional (questions : List Question)
    (answers : List AttemptAnswer) :
    attemptScore questions answers =
      (answers.zip questions).countP
        (fun p => p.1.selected_answer == p.2.correct_answer) ∧
    ∀ reindex : AttemptAnswer → Nat,
      attemptScore questions
        (answers.map (fun a => { a with question_index := reindex a })) =
      attemptScore questions answers := by
  have base : ∀ (as : List AttemptAnswer), attemptScore questions as =
      (as.zip questions).countP
        (fun p => p.1.selected_answer == p.2.correct_answer) := by
    intro as
    have h := attemptScore_enumFrom questions as 0 0
    simpa [attemptScore, List.enum] using h
  refine ⟨base answers, ?_⟩
  intro reindex
  rw [base, base, List.zip_map_left, List.countP_map]
  rfl

/-- Helper: one loop iteration of the all-modules generation keeps the success flag true and keeps the generated and skipped counters equal to the lengths of the corresponding result lists. -/
theorem processModule_inv (request : QuizGenerationRequest) (llm : String → LLMResult)
    (st : AllModulesState) (mi : CourseModuleInfo)
    (h1 : st.result.success = true)
    (h2 : st.result.generated_quizzes.length = st.generated_count)
    (h3 : st.result.skipped_modules.length = st.skipped_count) :
    (processModule request llm st mi).result.success = true ∧
    (processModule request llm st mi).result.generated_quizzes.length =
      (processModule request llm st mi).generated_count ∧
    (processModule request llm st mi).result.skipped_modules.length =
      (processModule request llm st mi).skipped_count := by
  simp only [processModule]
  split
  · exact ⟨h1, h2, h3⟩
  · split
    · simp [h1, h2, h3]
    · split
      · simp [h1, h2, h3]
      · simp [h1, h2, h3]

/-- Helper: the loop of the all-modules generation preserves the counter and success invariants. -/
theorem foldl_processModule_inv (request : QuizGenerationRequest)
    (llm : String → LLMResult) :
    ∀ (modules : List CourseModuleInfo) (st : AllModulesState),
      st.result.success = true →
      st.result.generated_quizzes.length = st.generated_count →
      st.result.skipped_modules.length = st.skipped_count →
      ((modules.foldl (processModule request llm) st).result.success = true ∧
       (modules.foldl (processModule request llm) st).result.generated_quizzes.length =
         (modules.foldl (processModule request llm) st).generated_count ∧
       (modules.foldl (processModule request llm) st).result.skipped_modules.length =
         (modules.foldl (processModule request llm) st).skipped_count) := by
  intro modules
  induction modules with
  | nil => intro st h1 h2 h3; exact ⟨h1, h2, h3⟩
  | cons mi ms ih =>
    intro st h1 h2 h3
    simp only [List.foldl_cons]
    obtain ⟨g1, g2, g3⟩ := processModule_inv request llm st mi h1 h2 h3
    exact ih _ g1 g2 g3

/-- Helper: the success flag of the single-module flow, started from the fresh result dictionary, equals generated-nonempty or skipped-nonempty. -/
theorem single_module_success_flag (db : DB) (request : QuizGenerationRequest)
    (mi : CourseModuleInfo) (llm : String → LLMResult) :
    (generate_quiz_for_single_module db request mi
      { success := true, message := "", generated_quizzes := [],
        skipped_modules := [], errors := [] } llm).1.success =
      (!(generate_quiz_for_single_module db request mi
          { success := true, message := "", generated_quizzes := [],
            skipped_modules := [], errors := [] } llm).1.generated_quizzes.isEmpty ||
       !(generate_quiz_for_single_module db request mi
          { success := true, message := "", generated_quizzes := [],
            skipped_modules := [], errors := [] } llm).1.skipped_modules.isEmpty) := by
  simp only [generate_quiz_for_single_module]
  split
  · simp
  · split
    · simp
    · simp

/-- Helper: the success flag of the all-modules flow, started from the fresh result dictionary, equals generated-nonempty or skipped-nonempty. -/
theorem all_modules_success_flag (db : DB) (request : QuizGenerationRequest)
    (modules : List CourseModuleInfo) (llm : String → LLMResult) :
    (generate_quizzes_for_all_modules db request modules
      { success := true, message := "", generated_quizzes := [],
        skipped_modules := [], errors := [] } llm).1.success =
      (!(generate_quizzes_for_all_modules db request modules
          { success := true, message := "", generated_quizzes := [],
            skipped_modules := [], errors := [] } llm).1.generated_quizzes.isEmpty ||
       !(generate_quizzes_for_all_modules db request modules
          { success := true, message := "", generated_quizzes := [],
            skipped_modules := [], errors := [] } llm).1.skipped_modules.isEmpty) := by
  obtain ⟨g1, g2, g3⟩ := foldl_processModule_inv request llm modules
    { db := db,
      result := { success := true, message := "", generated_quizzes := [],
                  skipped_modules := [], errors := [] },
      generated_count := 0, skipped_count := 0 } rfl rfl rfl
  simp only [generate_quizzes_for_all_modules]
  set st := modules.foldl (processModule request llm)
    { db := db,
      result := { success := true, message := "", generated_quizzes := [],
                  skipped_modules := [], errors := [] },
      generated_count := 0, skipped_count := 0 } with hst
  split
  next hg =>
    have hgen : st.result.generated_quizzes ≠ [] := by
      intro hnil
      rw [hnil] at g2
      simp at g2
      omega
    simp [g1, List.isEmpty_iff, hgen]
  next hg =>
    split
    next hs =>
      have hsk : st.result.skipped_modules ≠ [] := by
        intro hnil
        rw [hnil] at g3
        simp at g3
        omega
      simp [g1, List.isEmpty_iff, hsk]
    next hs =>
      have h1 : st.result.generated_quizzes = [] := by
        rw [← List.length_eq_zero, g2]
        omega
      have h2 : st.result.skipped_modules = [] := by
        rw [← List.length_eq_zero, g3]
        omega
      simp [h1, h2]

/-- C4 amended: for every batch generation outcome, the success flag equals (generated_quizzes nonempty) or (skipped_modules nonempty); recorded errors never clear the flag once a module was generated or skipped. -/
theorem batch_success_flag (db : DB) (request : QuizGenerationRequest)
    (llm : String → LLMResult) :
    (generate_quizzes_for_course db request llm).1.success =
      (!(generate_quizzes_for_course db request llm).1.generated_quizzes.isEmpty ||
       !(generate_quizzes_for_course db request llm).1.skipped_modules.isEmpty) := by
  unfold generate_quizzes_for_course
  by_cases hres : (get_course_modules_info db request.course_id request.module_code).isEmpty
  · simp [hres]
  · by_cases htr : optStrTruthy request.module_code = true
    · simp only [hres, htr, Bool.false_eq_true, if_false, if_true]
      exact single_module_success_flag db request _ llm
    · simp only [hres, htr, Bool.false_eq_true, if_false]
      exact all_modules_success_flag db request _ llm

/-- C4 counterexample: module A has a current batch and is skipped, module B
fails to generate and records an error, nothing is generated; the claimed
formula success = (generated nonempty) or (skipped nonempty and no errors)
evaluates to false, but the code reports success = true. -/
theorem batch_success_counterexample :
    (generate_quizzes_for_course dbBatch reqAll llmFail).1.success = true ∧
    (generate_quizzes_for_course dbBatch reqAll llmFail).1.generated_quizzes = [] ∧
    (generate_quizzes_for_course dbBatch reqAll llmFail).1.skipped_modules = [("A")] ∧
    (generate_quizzes_for_course dbBatch reqAll llmFail).1.errors ≠ [] ∧
    ¬ ((generate_quizzes_for_course dbBatch reqAll llmFail).1.generated_quizzes ≠ [] ∨
       ((generate_quizzes_for_course dbBatch reqAll llmFail).1.skipped_modules ≠ [] ∧
        (generate_quizzes_for_course dbBatch reqAll llmFail).1.errors = [])) := by
  decide

/-- C8 counterexample: a video asset with transcript T and a present duration of zero seconds. The claim says a present duration is appended, which would put (Duration: 0 minutes) in the block; the code tests Python truthiness, where 0 is falsy, so no duration suffix appears. -/
theorem video_duration_zero_counterexample :
    vidZero.duration = some 0 ∧
    extractAssetBlock vidZero = some ("Asset (VIDEO): V\nT") ∧
    pyContains ((extractAssetBlock vidZero).getD ("")) ("(Duration:") = false := by
  decide

/-- C8 amended: video extraction uses the ordered fallback transcript, then description, then content, then the fallback string, and appends the duration suffix exactly when a nonzero duration is present; the concrete asset with transcript T and duration 125 yields a block containing T and (Duration: 2 minutes). -/
theorem video_extraction_chain (a : Asset) (h : pyLower a.typeField = "video") :
    assetTypeContent a =
      ((if a.transcript ≠ "" then a.transcript
        else if a.description ≠ "" then a.description
        else if a.content ≠ "" then a.content
        else "Video content: " ++ a.title) ++
       (match a.duration with
        | some d => if d ≠ 0 then " (Duration: " ++ toString (d / 60) ++ " minutes)" else ""
        | none => "")) ∧
    pyContains ((extractAssetBlock vidDur).getD ("")) ("T") = true ∧
    pyContains ((extractAssetBlock vidDur).getD ("")) ("(Duration: 2 minutes)") = true := by
  refine ⟨?_, by decide, by decide⟩
  simp only [assetTypeContent, h]
  norm_num
  cases hd : a.duration with
  | none =>
    by_cases h1 : a.transcript = "" <;> by_cases h2 : a.description = "" <;>
      by_cases h3 : a.content = "" <;>
      simp [pyOrStr, optNatTruthy, h1, h2, h3, String.append_assoc]
  | some d =>
    by_cases hz : d = 0
    · subst hz
      by_cases h1 : a.transcript = "" <;> by_cases h2 : a.description = "" <;>
        by_cases h3 : a.content = "" <;>
        simp [pyOrStr, optNatTruthy, h1, h2, h3, String.append_assoc]
    · by_cases h1 : a.transcript = "" <;> by_cases h2 : a.description = "" <;>
        by_cases h3 : a.content = "" <;>
        simp [pyOrStr, optNatTruthy, hz, h1, h2, h3, String.append_assoc]

/-- C8 witness: the amended statement applied to the concrete 125-second video asset. -/
theorem video_extraction_chain_witness :
    (assetTypeContent vidDur =
      ((if vidDur.transcript ≠ "" then vidDur.transcript
        else if vidDur.description ≠ "" then vidDur.description
        else if vidDur.content ≠ "" then vidDur.content
        else "Video content: " ++ vidDur.title) ++
       (match vidDur.duration with
        | some d => if d ≠ 0 then " (Duration: " ++ toString (d / 60) ++ " minutes)" else ""
        | none => ""))) ∧
    pyContains ((extractAssetBlock vidDur).getD ("")) ("T") = true ∧
    pyContains ((extractAssetBlock vidDur).getD ("")) ("(Duration: 2 minutes)") = true :=
  video_extraction_chain vidDur (by decide)

/-- C5: generation with overwrite = false is idempotent per module: when the
requested module resolves and already has a current batch, the call leaves the
whole store unchanged, reports exactly that module code in skipped_modules,
and generates nothing. -/
theorem generation_skip_idempotent (db : DB) (request : QuizGenerationRequest)
    (llm : String → LLMResult) (m : String)
    (hm : request.module_code = some m) (hm2 : m ≠ "")
    (hres : get_course_modules_info db request.course_id request.module_code ≠ [])
    (hex : get_quizzes_by_course db request.course_id request.module_code ≠ [])
    (hov : request.overwrite = false) :
    (generate_quizzes_for_course db request llm).2 = db ∧
    (generate_quizzes_for_course db request llm).1.skipped_modules = [m] ∧
    (generate_quizzes_for_course db request llm).1.generated_quizzes = [] := by
  have htr : optStrTruthy request.module_code = true := by
    simp [hm, optStrTruthy, hm2]
  have hne : (get_course_modules_info db request.course_id request.module_code).isEmpty
      = false := by
    simp [List.isEmpty_iff, hres]
  have hexe : (get_quizzes_by_course db request.course_id request.module_code).isEmpty
      = false := by
    simp [List.isEmpty_iff, hex]
  unfold generate_quizzes_for_course
  simp only [hne, htr, Bool.false_eq_true, if_false, if_true]
  unfold generate_quiz_for_single_module
  simp only [hexe, hov, Bool.not_false, Bool.and_true, Bool.not_true, Bool.and_false]
  simp [hm]

/-- C5 witness: module A of the concrete course already has a current batch;
the second generation call with overwrite = false changes nothing. -/
theorem generation_skip_idempotent_witness :
    (generate_quizzes_for_course dbBatch reqSingleA llmFail).2 = dbBatch ∧
    (generate_quizzes_for_course dbBatch reqSingleA llmFail).1.skipped_modules = [("A")] ∧
    (generate_quizzes_for_course dbBatch reqSingleA llmFail).1.generated_quizzes = [] :=
  generation_skip_idempotent dbBatch reqSingleA llmFail ("A") (by decide) (by decide)
    (by decide) (by decide) (by decide)

/-- Helper: a pointwise implication between predicates bounds the count of a composed predicate. -/
theorem countP_comp_le {p : Quiz → Bool} {upd : Quiz → Quiz}
    (h : ∀ q, p (upd q) = true → p q = true) :
    ∀ l : List Quiz, l.countP (fun q => p (upd q)) ≤ l.countP p := by
  intro l
  induction l with
  | nil => simp
  | cons q l ih =>
    simp only [List.countP_cons]
    by_cases hq : p (upd q) = true
    · simp only [hq, h q hq, if_true]
      omega
    · simp only [Bool.not_eq_true] at hq
      simp only [hq, Bool.false_eq_true, if_false]
      split <;> omega

/-- Helper: mapping an update that only ever falsifies the predicate cannot increase the count. -/
theorem countP_map_le {p : Quiz → Bool} {upd : Quiz → Quiz}
    (h : ∀ q, p (upd q) = true → p q = true) (l : List Quiz) :
    (l.map upd).countP p ≤ l.countP p := by
  rw [List.countP_map]
  exact countP_comp_le h l

/-- Helper: the batch soft delete preserves the uniqueness invariant, because it only turns quizzes deleted. -/
theorem mark_preserves_invariant (db : DB) (c : String) (mc : Option String)
    (hinv : slotInvariant db) :
    slotInvariant (mark_existing_quizzes_as_deleted db c mc).1 := by
  intro c' m'
  have hbase := hinv c' m'
  unfold currentBatch at hbase ⊢
  unfold mark_existing_quizzes_as_deleted
  simp only [← List.countP_eq_length_filter] at hbase ⊢
  refine le_trans (countP_map_le ?_ db.quizzes) hbase
  intro q hq
  by_cases hm : (q.course_id == c && q.module_code == mc && !q.is_deleted) = true
  · simp [hm] at hq
  · simp only [Bool.not_eq_true] at hm
    simpa [hm] using hq

/-- Helper: the single soft delete preserves the uniqueness invariant. -/
theorem delete_preserves_invariant (db : DB) (qid : Nat)
    (hinv : slotInvariant db) :
    slotInvariant (delete_quiz db qid).1 := by
  intro c' m'
  have hbase := hinv c' m'
  unfold currentBatch at hbase ⊢
  unfold delete_quiz
  cases hfind : db.quizzes.find? (fun q => q.id == qid) with
  | none => simpa [hfind] using hbase
  | some q0 =>
    simp only [hfind]
    simp only [← List.countP_eq_length_filter] at hbase ⊢
    refine le_trans (countP_map_le ?_ db.quizzes) hbase
    intro q hq
    by_cases hm : (q.id == qid) = true
    · simp [hm] at hq
    · simp only [Bool.not_eq_true] at hm
      simpa [hm] using hq
/-- Helper: when the active listing for a pair is empty, the current batch of that pair is empty. -/
theorem currentBatch_nil_of_get_nil (db : DB) (c : String) (mc : Option String)
    (hget : get_quizzes_by_course db c mc = []) : currentBatch db c mc = [] := by
  unfold get_quizzes_by_course at hget
  unfold currentBatch
  rw [List.filter_eq_nil] at hget ⊢
  intro q hq
  have hg := hget q hq
  intro hcon
  apply hg
  simp only [Bool.and_eq_true, beq_iff_eq, Bool.not_eq_true'] at hcon ⊢
  obtain ⟨⟨⟨hc, hm⟩, ha⟩, hd⟩ := hcon
  refine ⟨⟨⟨hc, ha⟩, hd⟩, ?_⟩
  cases htr : optStrTruthy mc <;> simp [hm]

/-- Helper: right after the batch soft delete for a pair, that pair has no current batch. -/
theorem currentBatch_mark_nil (db : DB) (c : String) (mc : Option String) :
    currentBatch (mark_existing_quizzes_as_deleted db c mc).1 c mc = [] := by
  unfold currentBatch mark_existing_quizzes_as_deleted
  rw [List.filter_eq_nil]
  intro q hq
  rw [List.mem_map] at hq
  obtain ⟨q0, _, rfl⟩ := hq
  by_cases hm : (q0.course_id == c && q0.module_code == mc && !q0.is_deleted) = true
  · simp [hm]
  · simp only [Bool.not_eq_true] at hm
    simp only [hm, Bool.false_eq_true, if_false]
    intro hcon
    simp only [Bool.and_eq_true, Bool.not_eq_true'] at hcon
    obtain ⟨⟨⟨hc, hmm⟩, _⟩, hd⟩ := hcon
    simp [hc, hmm, hd] at hm

/-- Helper: inserting one fresh active quiz into a pair whose current batch is empty keeps the uniqueness invariant. -/
theorem create_on_empty_slot (db : DB) (qc : QuizCreate)
    (hinv : slotInvariant db)
    (hempty : currentBatch db qc.course_id qc.module_code = []) :
    slotInvariant (create_quiz db qc).2 := by
  intro c' m'
  unfold currentBatch at hempty ⊢
  unfold create_quiz
  simp only [List.filter_append, List.length_append]
  by_cases hc : (qc.course_id == c' && qc.module_code == m') = true
  · simp only [Bool.and_eq_true, beq_iff_eq] at hc
    obtain ⟨hc1, hc2⟩ := hc
    subst hc1
    subst hc2
    rw [hempty]
    simp
  · have hfil : (db.quizzes.filter (fun q =>
        q.course_id == c' && q.module_code == m' && q.is_active && !q.is_deleted)).length ≤ 1 := by
      have := hinv c' m'
      unfold currentBatch at this
      exact this
    have : (List.filter (fun q : Quiz =>
        q.course_id == c' && q.module_code == m' && q.is_active && !q.is_deleted)
        [{ id := db.nextQuizId, course_id := qc.course_id, module_code := qc.module_code,
           title := qc.title, description := qc.description, difficulty := qc.difficulty,
           questions := qc.questions, total_questions := qc.questions.length,
           estimated_time_minutes := qc.estimated_time_minutes, is_active := true,
           is_deleted := false, generated_by_ai := true }]).length = 0 := by
      simp only [List.filter, List.length_nil]
      simp only [Bool.not_eq_true] at hc
      simp [hc]
    omega
/-- Helper: generating into a pair whose current batch is empty preserves the uniqueness invariant. -/
theorem gen_module_preserves (db : DB) (c : String) (mc : Option String)
    (content mtitle : String) (nq : Nat) (diff : String) (r : LLMResult)
    (hinv : slotInvariant db)
    (hempty : currentBatch db c mc = []) :
    slotInvariant (generate_quiz_for_module db c mc content mtitle nq diff r).2 := by
  cases r with
  | failure => exact hinv
  | invalid => exact hinv
  | quizData title questions =>
    simp only [generate_quiz_for_module]
    split
    · exact create_on_empty_slot db _ hinv hempty
    · exact hinv

/-- Helper: the single-module generation flow preserves the uniqueness invariant. -/
theorem single_preserves (db : DB) (request : QuizGenerationRequest)
    (mi : CourseModuleInfo) (result : BatchResult) (llm : String → LLMResult)
    (hinv : slotInvariant db) :
    slotInvariant (generate_quiz_for_single_module db request mi result llm).2 := by
  simp only [generate_quiz_for_single_module]
  split
  · exact hinv
  next hskip =>
    by_cases hcase : ((!(get_quizzes_by_course db request.course_id
        request.module_code).isEmpty) && request.overwrite) = true
    · have hinv1 := mark_preserves_invariant db request.course_id request.module_code hinv
      have hempty1 := currentBatch_mark_nil db request.course_id request.module_code
      simp only [hcase, if_true]
      have hgen := gen_module_preserves _ request.course_id request.module_code
        (pyOrStr mi.assets_content ("")) (pyOrStr mi.module_title ("Module"))
        request.num_questions request.difficulty
        (llm (request.module_code.getD (""))) hinv1 hempty1
      split <;> exact hgen
    · have hex : get_quizzes_by_course db request.course_id request.module_code = [] := by
        by_cases hne : (get_quizzes_by_course db request.course_id
            request.module_code).isEmpty = true
        · simpa [List.isEmpty_iff] using hne
        · exfalso
          simp only [Bool.not_eq_true] at hne
          rcases Bool.eq_false_or_eq_true request.overwrite with hov | hov
          · exact hcase (by simp [hne, hov])
          · exact hskip (by simp [hne, hov])
      have hempty1 := currentBatch_nil_of_get_nil db request.course_id
        request.module_code hex
      simp only [hcase, Bool.false_eq_true, if_false]
      have hgen := gen_module_preserves db request.course_id request.module_code
        (pyOrStr mi.assets_content ("")) (pyOrStr mi.module_title ("Module"))
        request.num_questions request.difficulty
        (llm (request.module_code.getD (""))) hinv hempty1
      split <;> exact hgen
/-- Helper: one iteration of the all-modules loop preserves the uniqueness invariant. -/
theorem processModule_preserves (request : QuizGenerationRequest)
    (llm : String → LLMResult) (st : AllModulesState) (mi : CourseModuleInfo)
    (hinv : slotInvariant st.db) :
    slotInvariant (processModule request llm st mi).db := by
  simp only [processModule]
  split
  · exact hinv
  · split
    · exact hinv
    next hskip =>
      by_cases hcase : ((!(get_quizzes_by_course st.db request.course_id
          (some mi.module_code)).isEmpty) && request.overwrite) = true
      · have hinv1 := mark_preserves_invariant st.db request.course_id
          (some mi.module_code) hinv
        have hempty1 := currentBatch_mark_nil st.db request.course_id
          (some mi.module_code)
        simp only [hcase, if_true]
        have hgen := gen_module_preserves _ request.course_id (some mi.module_code)
          (pyOrStr mi.assets_content (""))
          (pyOrStr mi.module_title ("Module " ++ mi.module_code))
          request.num_questions request.difficulty (llm mi.module_code) hinv1 hempty1
        split <;> exact hgen
      · have hex : get_quizzes_by_course st.db request.course_id
            (some mi.module_code) = [] := by
          by_cases hne : (get_quizzes_by_course st.db request.course_id
              (some mi.module_code)).isEmpty = true
          · simpa [List.isEmpty_iff] using hne
          · exfalso
            simp only [Bool.not_eq_true] at hne
            rcases Bool.eq_false_or_eq_true request.overwrite with hov | hov
            · exact hcase (by simp [hne, hov])
            · exact hskip (by simp [hne, hov])
        have hempty1 := currentBatch_nil_of_get_nil st.db request.course_id
          (some mi.module_code) hex
        simp only [hcase, Bool.false_eq_true, if_false]
        have hgen := gen_module_preserves st.db request.course_id
          (some mi.module_code) (pyOrStr mi.assets_content (""))
          (pyOrStr mi.module_title ("Module " ++ mi.module_code))
          request.num_questions request.difficulty (llm mi.module_code) hinv hempty1
        split <;> exact hgen

/-- Helper: the all-modules loop preserves the uniqueness invariant. -/
theorem foldl_processModule_preserves (request : QuizGenerationRequest)
    (llm : String → LLMResult) :
    ∀ (modules : List CourseModuleInfo) (st : AllModulesState),
      slotInvariant st.db →
      slotInvariant ((modules.foldl (processModule request llm) st).db) := by
  intro modules
  induction modules with
  | nil => intro st h; exact h
  | cons mi ms ih =>
    intro st h
    simp only [List.foldl_cons]
    exact ih _ (processModule_preserves request llm st mi h)

/-- C2 amended: the uniqueness invariant (at most one active, non-deleted quiz
per (course_id, module_code) pair) is preserved by batch soft delete, soft
delete, and the whole generation flow; it is preserved neither by create_quiz,
which inserts an active quiz without checking for an existing current batch,
nor by update_quiz, whose QuizUpdate payload includes is_active and can
reactivate an inactive, non-deleted quiz in a pair that already has an active
one (both failures in the counterexample). -/
theorem slot_invariant_preservation (db : DB) (hinv : slotInvariant db) :
    (∀ (c : String) (mc : Option String),
      slotInvariant (mark_existing_quizzes_as_deleted db c mc).1) ∧
    (∀ qid : Nat, slotInvariant (delete_quiz db qid).1) ∧
    (∀ (request : QuizGenerationRequest) (llm : String → LLMResult),
      slotInvariant (generate_quizzes_for_course db request llm).2) := by
  refine ⟨fun c mc => mark_preserves_invariant db c mc hinv,
          fun qid => delete_preserves_invariant db qid hinv,
          fun request llm => ?_⟩
  simp only [generate_quizzes_for_course]
  split
  · exact hinv
  · split
    · exact single_preserves db request _ _ llm hinv
    · simp only [generate_quizzes_for_all_modules]
      have hall := foldl_processModule_preserves request llm
        (get_course_modules_info db request.course_id request.module_code)
        { db := db,
          result := { success := true, message := "", generated_quizzes := [],
                      skipped_modules := [], errors := [] },
          generated_count := 0, skipped_count := 0 } hinv
      split
      · exact hall
      · split
        · exact hall
        · exact hall
/-- Helper: a pointwise implication between predicates bounds the counts. -/
theorem countP_le_countP_weak (p q : Quiz → Bool)
    (h : ∀ x, p x = true → q x = true) :
    ∀ l : List Quiz, l.countP p ≤ l.countP q := by
  intro l
  induction l with
  | nil => simp
  | cons x xs ih =>
    simp only [List.countP_cons]
    by_cases hx : p x = true
    · simp only [hx, h x hx, if_true]
      omega
    · simp only [Bool.not_eq_true] at hx
      simp only [hx, Bool.false_eq_true, if_false]
      split <;> omega

/-- Helper: a store with at most one active, non-deleted quiz overall
satisfies the per-pair uniqueness invariant. -/
theorem slotInvariant_of_few (db : DB)
    (h : db.quizzes.countP (fun x => x.is_active && !x.is_deleted) ≤ 1) :
    slotInvariant db := by
  intro c m
  unfold currentBatch
  rw [← List.countP_eq_length_filter]
  refine le_trans (countP_le_countP_weak _ _ ?_ db.quizzes) h
  intro x hx
  simp only [Bool.and_eq_true] at hx ⊢
  exact ⟨hx.1.2, hx.2⟩

/-- C2 counterexample: two distinct operations each break the claimed
invariant. First, calling create_quiz twice for the same pair, as the manual
create endpoint allows, yields two active, non-deleted quizzes for
(cid24, M1). Second, update_quiz: starting from a store that satisfies the
invariant and holds an inactive, non-deleted quiz 0 beside the active quiz 1
of the same pair, an update payload with is_active = true (a field QuizUpdate
offers) reactivates quiz 0 and leaves two active, non-deleted quizzes in the
pair. -/
theorem slot_invariant_counterexample :
    ((currentBatch (create_quiz emptyDB qcA).2 cid24 (some ("M1"))).length = 1 ∧
     (currentBatch (create_quiz (create_quiz emptyDB qcA).2 qcA).2 cid24
       (some ("M1"))).length = 2 ∧
     ¬ slotInvariant (create_quiz (create_quiz emptyDB qcA).2 qcA).2) ∧
    (slotInvariant dbUpd2 ∧
     (currentBatch dbUpd2 cid24 (some ("M1"))).length = 1 ∧
     (currentBatch dbUpd3 cid24 (some ("M1"))).length = 2 ∧
     ¬ slotInvariant dbUpd3) := by
  refine ⟨⟨by decide, by decide, fun hinv => ?_⟩,
          slotInvariant_of_few dbUpd2 (by decide), by decide, by decide,
          fun hinv => ?_⟩
  · exact absurd (hinv cid24 (some ("M1"))) (by decide)
  · exact absurd (hinv cid24 (some ("M1"))) (by decide)

/-- C2 witness: the preservation theorem applied to the empty store and a concrete request. -/
theorem slot_invariant_preservation_witness :
    slotInvariant (generate_quizzes_for_course emptyDB reqAll llmFail).2 :=
  (slot_invariant_preservation emptyDB
    (fun c m => by simp [currentBatch, emptyDB])).2.2 reqAll llmFail

/-- Helper: a list is a prefix of itself followed by anything. -/
theorem startsWithSeq_append_self (p r : List Char) :
    startsWithSeq p (p ++ r) = true := by
  induction p with
  | nil => rfl
  | cons c cs ih => simp [startsWithSeq, ih]

/-- Helper: the replace scan passes unchanged over a segment that does not contain the head character of the pattern. -/
theorem replaceDelAux_append_no_head (p0 : Char) (ps : List Char) :
    ∀ (l r : List Char) (fuel : Nat), p0 ∉ l → l.length ≤ fuel →
      replaceDelAux (p0 :: ps) fuel (l ++ r) =
        l ++ replaceDelAux (p0 :: ps) (fuel - l.length) r := by
  intro l
  induction l with
  | nil => intro r fuel _ _; simp
  | cons c cs ih =>
    intro r fuel hmem hlen
    cases fuel with
    | zero => simp at hlen
    | succ f =>
      have hne : (p0 == c) = false := by
        have : p0 ≠ c := fun hcon => hmem (hcon ▸ List.mem_cons_self c cs)
        simpa using this
      have hmem2 : p0 ∉ cs := fun hcon => hmem (List.mem_cons_of_mem c hcon)
      simp only [List.cons_append, replaceDelAux, startsWithSeq, hne,
        Bool.false_and, Bool.false_eq_true, if_false, List.append_eq]
      rw [ih r f hmem2 (by simpa using hlen)]
      have harith : f + 1 - (c :: cs).length = f - cs.length := by
        simp only [List.length_cons]
        omega
      rw [harith]

/-- Helper: stripping absorbs a leading newline. -/
theorem pyStripL_cons_nl (l : List Char) : pyStripL ('\n' :: l) = pyStripL l := by
  simp [pyStripL, List.dropWhile_cons, pySpace]

/-- Helper: stripping absorbs a trailing newline. -/
theorem pyStripL_snoc_nl (l : List Char) : pyStripL (l ++ ['\n']) = pyStripL l := by
  unfold pyStripL
  induction l with
  | nil => simp [List.dropWhile_cons, pySpace]
  | cons c cs ih =>
    by_cases hc : pySpace c = true
    · simpa [List.dropWhile_cons, hc] using ih
    · simp only [Bool.not_eq_true] at hc
      simp only [List.cons_append, List.dropWhile_cons, hc, Bool.false_eq_true, if_false]
      simp only [List.reverse_cons, List.reverse_append]
      simp [List.dropWhile_cons, pySpace, List.dropWhile_append]

/-- Helper: the json fence pattern does not match a single backtick. -/
theorem replaceDelAux_json_one :
    ∀ fuel, replaceDelAux [btick, btick, btick, 'j', 's', 'o', 'n'] fuel [btick]
      = [btick] := by
  intro fuel
  cases fuel with
  | zero => simp [replaceDelAux]
  | succ f =>
    have h1 : startsWithSeq [btick, btick, btick, 'j', 's', 'o', 'n'] [btick]
        = false := by decide
    simp [replaceDelAux, h1]

/-- Helper: the json fence pattern does not match two backticks. -/
theorem replaceDelAux_json_two :
    ∀ fuel, replaceDelAux [btick, btick, btick, 'j', 's', 'o', 'n'] fuel
      [btick, btick] = [btick, btick] := by
  intro fuel
  cases fuel with
  | zero => simp [replaceDelAux]
  | succ f =>
    have h1 : startsWithSeq [btick, btick, btick, 'j', 's', 'o', 'n'] [btick, btick]
        = false := by decide
    simp only [replaceDelAux, h1, Bool.false_eq_true, if_false, List.cons.injEq,
      true_and]
    exact replaceDelAux_json_one f

/-- Helper: the json fence pattern does not match three lone backticks. -/
theorem replaceDelAux_json_three :
    ∀ fuel, replaceDelAux [btick, btick, btick, 'j', 's', 'o', 'n'] fuel
      [btick, btick, btick] = [btick, btick, btick] := by
  intro fuel
  cases fuel with
  | zero => simp [replaceDelAux]
  | succ f =>
    have h1 : startsWithSeq [btick, btick, btick, 'j', 's', 'o', 'n']
        [btick, btick, btick] = false := by decide
    simp only [replaceDelAux, h1, Bool.false_eq_true, if_false, List.cons.injEq,
      true_and]
    exact replaceDelAux_json_two f

/-- Helper: the plain fence pattern deletes a trailing triple backtick. -/
theorem replaceDelAux_ticks_three :
    ∀ fuel, 1 ≤ fuel →
      replaceDelAux [btick, btick, btick] fuel [btick, btick, btick] = [] := by
  intro fuel hf
  cases fuel with
  | zero => omega
  | succ f =>
    have h1 : startsWithSeq [btick, btick, btick] [btick, btick, btick] = true := by
      decide
    have h2 : List.drop ([btick, btick, btick] : List Char).length
        [btick, btick, btick] = ([] : List Char) := by decide
    simp [replaceDelAux, h1, h2]

/-- Helper: stripping a list whose two ends are non-space characters is the identity. -/
theorem pyStripL_self_of_ends (c d : Char) (mid : List Char)
    (hc : pySpace c = false) (hd : pySpace d = false) :
    pyStripL (c :: mid ++ [d]) = c :: mid ++ [d] := by
  unfold pyStripL
  simp [List.dropWhile_cons, hc, hd, List.reverse_cons, List.reverse_append]

/-- Helper: stripping only removes characters. -/
theorem mem_of_mem_pyStripL {c : Char} {l : List Char} (h : c ∈ pyStripL l) :
    c ∈ l := by
  unfold pyStripL at h
  rw [List.mem_reverse] at h
  have h2 := (List.dropWhile_sublist pySpace).mem h
  rw [List.mem_reverse] at h2
  exact (List.dropWhile_sublist pySpace).mem h2

/-- Helper: a pattern starting with a backtick never prefixes a backtick-free list. -/
theorem startsWithSeq_bt_false (ps l : List Char) (h : btick ∉ l) :
    startsWithSeq (btick :: ps) l = false := by
  cases l with
  | nil => rfl
  | cons x xs =>
    have : (btick == x) = false := by
      have : btick ≠ x := fun hcon => h (hcon ▸ List.mem_cons_self x xs)
      simpa using this
    simp [startsWithSeq, this]

/-- Helper: a replace scan over input beginning with the full pattern consumes it. -/
theorem replaceDelAux_cons_match (pat X : List Char) (f : Nat) (hne : pat ≠ []) :
    replaceDelAux pat (f + 1) (pat ++ X) = replaceDelAux pat f X := by
  cases pat with
  | nil => exact absurd rfl hne
  | cons p0 ps =>
    have hsw : startsWithSeq (p0 :: ps) (p0 :: (ps ++ X)) = true := by
      have := startsWithSeq_append_self (p0 :: ps) X
      simpa using this
    have hdrop : List.drop (p0 :: ps).length (p0 :: (ps ++ X)) = X := by
      simp only [List.length_cons, List.drop_succ_cons]
      exact List.drop_left ps X
    simp only [List.cons_append, replaceDelAux, List.append_eq, hsw, if_true]
    rw [hdrop]
/-- Helper: cleaning a backtick-free text wrapped in a json fence yields the stripped text. -/
theorem cleanQuizContent_fence_json (t : String) (h : btick ∉ t.data) :
    cleanQuizContent (wrapJsonFence t) = pyStrip t := by
  have hp1 : ("```json").data = [btick, btick, btick, 'j', 's', 'o', 'n'] := by decide
  have hwd : (wrapJsonFence t).data =
      ("```json").data ++ ('\n' :: (t.data ++ ('\n' :: [btick, btick, btick]))) := by
    show (("```json\n").data ++ t.data) ++ ("\n```").data = _
    rw [show ("```json\n").data =
          btick :: btick :: btick :: 'j' :: 's' :: 'o' :: 'n' :: '\n' :: [] from by decide,
        show ("\n```").data = '\n' :: btick :: btick :: btick :: [] from by decide, hp1]
    simp
  have hXshape : ('\n' :: (t.data ++ ('\n' :: [btick, btick, btick]))) =
      ('\n' :: (t.data ++ ['\n'])) ++ [btick, btick, btick] := by
    simp
  have hmem1 : btick ∉ ('\n' :: (t.data ++ ['\n'])) := by
    intro hcon
    rcases List.mem_cons.mp hcon with hx | hx
    · exact absurd hx (by decide)
    · rcases List.mem_append.mp hx with hy | hy
      · exact h hy
      · exact absurd (List.mem_singleton.mp hy) (by decide)
  have hstrip : pyStrip (wrapJsonFence t) = wrapJsonFence t := by
    apply String.ext
    show pyStripL (wrapJsonFence t).data = (wrapJsonFence t).data
    rw [hwd, hp1]
    have hsh : [btick, btick, btick, 'j', 's', 'o', 'n'] ++
        ('\n' :: (t.data ++ ('\n' :: [btick, btick, btick]))) =
        btick :: ([btick, btick, 'j', 's', 'o', 'n', '\n'] ++ t.data ++
          ['\n', btick, btick]) ++ [btick] := by
      simp
    rw [hsh]
    exact pyStripL_self_of_ends btick btick _ (by decide) (by decide)
  have hsw : pyStartsWith (wrapJsonFence t) ("```json") = true := by
    unfold pyStartsWith
    rw [hwd]
    exact startsWithSeq_append_self _ _
  have hrep1 : pyReplaceDel (wrapJsonFence t) ("```json") =
      String.mk ('\n' :: (t.data ++ ('\n' :: [btick, btick, btick]))) := by
    apply String.ext
    show replaceDelAux ("```json").data (wrapJsonFence t).data.length
      (wrapJsonFence t).data = ('\n' :: (t.data ++ ('\n' :: [btick, btick, btick])))
    rw [hwd, hp1]
    have hlen : ([btick, btick, btick, 'j', 's', 'o', 'n'] ++
        ('\n' :: (t.data ++ ('\n' :: [btick, btick, btick])))).length =
        (('\n' :: (t.data ++ ('\n' :: [btick, btick, btick]))).length + 6) + 1 := by
      simp only [List.length_append, List.length_cons, List.length_nil]
      omega
    rw [hlen]
    rw [replaceDelAux_cons_match _ _ _ (by simp)]
    rw [hXshape]
    rw [replaceDelAux_append_no_head btick [btick, btick, 'j', 's', 'o', 'n']
      ('\n' :: (t.data ++ ['\n'])) [btick, btick, btick] _ hmem1 (by
        simp only [List.length_cons, List.length_append, List.length_nil]
        omega)]
    rw [replaceDelAux_json_three]
  have hrep2 : pyReplaceDel
      (String.mk ('\n' :: (t.data ++ ('\n' :: [btick, btick, btick])))) ("```") =
      String.mk ('\n' :: (t.data ++ ['\n'])) := by
    apply String.ext
    have hp2 : ("```").data = [btick, btick, btick] := by decide
    show replaceDelAux ("```").data
      ('\n' :: (t.data ++ ('\n' :: [btick, btick, btick]))).length
      ('\n' :: (t.data ++ ('\n' :: [btick, btick, btick]))) =
      ('\n' :: (t.data ++ ['\n']))
    rw [hp2, hXshape]
    rw [replaceDelAux_append_no_head btick [btick, btick]
      ('\n' :: (t.data ++ ['\n'])) [btick, btick, btick] _ hmem1 (by
        simp only [List.length_append, List.length_cons, List.length_nil]
        omega)]
    rw [replaceDelAux_ticks_three _ (by
        simp only [List.length_append, List.length_cons, List.length_nil]
        omega)]
    simp
  simp only [cleanQuizContent]
  rw [hstrip, hsw]
  simp only [if_true]
  rw [hrep1, hrep2]
  apply String.ext
  show pyStripL ('\n' :: (t.data ++ ['\n'])) = pyStripL t.data
  rw [pyStripL_cons_nl, pyStripL_snoc_nl]
/-- Helper: cleaning a backtick-free text wrapped in a plain fence yields the stripped text. -/
theorem cleanQuizContent_fence_plain (t : String) (h : btick ∉ t.data) :
    cleanQuizContent (wrapPlainFence t) = pyStrip t := by
  have hp2 : ("```").data = [btick, btick, btick] := by decide
  have hwd : (wrapPlainFence t).data =
      ("```").data ++ ('\n' :: (t.data ++ ('\n' :: [btick, btick, btick]))) := by
    show (("```\n").data ++ t.data) ++ ("\n```").data = _
    rw [show ("```\n").data = btick :: btick :: btick :: '\n' :: [] from by decide,
        show ("\n```").data = '\n' :: btick :: btick :: btick :: [] from by decide, hp2]
    simp
  have hXshape : ('\n' :: (t.data ++ ('\n' :: [btick, btick, btick]))) =
      ('\n' :: (t.data ++ ['\n'])) ++ [btick, btick, btick] := by
    simp
  have hmem1 : btick ∉ ('\n' :: (t.data ++ ['\n'])) := by
    intro hcon
    rcases List.mem_cons.mp hcon with hx | hx
    · exact absurd hx (by decide)
    · rcases List.mem_append.mp hx with hy | hy
      · exact h hy
      · exact absurd (List.mem_singleton.mp hy) (by decide)
  have hstrip : pyStrip (wrapPlainFence t) = wrapPlainFence t := by
    apply String.ext
    show pyStripL (wrapPlainFence t).data = (wrapPlainFence t).data
    rw [hwd, hp2]
    have hsh : [btick, btick, btick] ++
        ('\n' :: (t.data ++ ('\n' :: [btick, btick, btick]))) =
        btick :: ([btick, btick, '\n'] ++ t.data ++ ['\n', btick, btick]) ++ [btick] := by
      simp
    rw [hsh]
    exact pyStripL_self_of_ends btick btick _ (by decide) (by decide)
  have hswj : pyStartsWith (wrapPlainFence t) ("```json") = false := by
    unfold pyStartsWith
    rw [hwd, hp2]
    have hsh : ([btick, btick, btick] : List Char) ++
        ('\n' :: (t.data ++ ('\n' :: [btick, btick, btick]))) =
        btick :: btick :: btick :: '\n' :: (t.data ++ ('\n' :: [btick, btick, btick])) := by
      simp
    rw [hsh, show ("```json").data = btick :: btick :: btick :: 'j' :: ['s', 'o', 'n']
      from by decide]
    have hj : (('j' : Char) == '\n') = false := by decide
    have hb : ((btick : Char) == btick) = true := by decide
    simp [startsWithSeq, hb, hj]
  have hswp : pyStartsWith (wrapPlainFence t) ("```") = true := by
    unfold pyStartsWith
    rw [hwd]
    exact startsWithSeq_append_self _ _
  have hrep : pyReplaceDel (wrapPlainFence t) ("```") =
      String.mk ('\n' :: (t.data ++ ['\n'])) := by
    apply String.ext
    show replaceDelAux ("```").data (wrapPlainFence t).data.length
      (wrapPlainFence t).data = ('\n' :: (t.data ++ ['\n']))
    rw [hwd, hp2]
    have hlen : ([btick, btick, btick] ++
        ('\n' :: (t.data ++ ('\n' :: [btick, btick, btick])))).length =
        (('\n' :: (t.data ++ ('\n' :: [btick, btick, btick]))).length + 2) + 1 := by
      simp only [List.length_append, List.length_cons, List.length_nil]
      omega
    rw [hlen]
    rw [replaceDelAux_cons_match _ _ _ (by simp)]
    rw [hXshape]
    rw [replaceDelAux_append_no_head btick [btick, btick]
      ('\n' :: (t.data ++ ['\n'])) [btick, btick, btick] _ hmem1 (by
        simp only [List.length_cons, List.length_append, List.length_nil]
        omega)]
    rw [replaceDelAux_ticks_three _ (by
        simp only [List.length_cons, List.length_append, List.length_nil]
        omega)]
    simp
  simp only [cleanQuizContent]
  rw [hstrip, hswj, hswp]
  simp only [Bool.false_eq_true, if_false, if_true]
  rw [hrep]
  apply String.ext
  show pyStripL ('\n' :: (t.data ++ ['\n'])) = pyStripL t.data
  rw [pyStripL_cons_nl, pyStripL_snoc_nl]

/-- Helper: cleaning a backtick-free text yields the stripped text. -/
theorem cleanQuizContent_no_bt (t : String) (h : btick ∉ t.data) :
    cleanQuizContent t = pyStrip t := by
  have hmem : btick ∉ (pyStrip t).data := fun hc => h (mem_of_mem_pyStripL hc)
  have h1 : pyStartsWith (pyStrip t) ("```json") = false := by
    unfold pyStartsWith
    rw [show ("```json").data = btick :: [btick, btick, 'j', 's', 'o', 'n']
      from by decide]
    exact startsWithSeq_bt_false _ _ hmem
  have h2 : pyStartsWith (pyStrip t) ("```") = false := by
    unfold pyStartsWith
    rw [show ("```").data = btick :: [btick, btick] from by decide]
    exact startsWithSeq_bt_false _ _ hmem
  simp only [cleanQuizContent, h1, h2, Bool.false_eq_true, if_false]
/-- Helper: a json-fenced text strips to itself (both ends are backticks). -/
theorem pyStrip_wrapJson_self (t : String) :
    pyStrip (wrapJsonFence t) = wrapJsonFence t := by
  have hp1 : ("```json").data = [btick, btick, btick, 'j', 's', 'o', 'n'] := by decide
  have hwd : (wrapJsonFence t).data =
      ("```json").data ++ ('\n' :: (t.data ++ ('\n' :: [btick, btick, btick]))) := by
    show (("```json\n").data ++ t.data) ++ ("\n```").data = _
    rw [show ("```json\n").data =
          btick :: btick :: btick :: 'j' :: 's' :: 'o' :: 'n' :: '\n' :: [] from by decide,
        show ("\n```").data = '\n' :: btick :: btick :: btick :: [] from by decide, hp1]
    simp
  apply String.ext
  show pyStripL (wrapJsonFence t).data = (wrapJsonFence t).data
  rw [hwd, hp1]
  have hsh : [btick, btick, btick, 'j', 's', 'o', 'n'] ++
      ('\n' :: (t.data ++ ('\n' :: [btick, btick, btick]))) =
      btick :: ([btick, btick, 'j', 's', 'o', 'n', '\n'] ++ t.data ++
        ['\n', btick, btick]) ++ [btick] := by
    simp
  rw [hsh]
  exact pyStripL_self_of_ends btick btick _ (by decide) (by decide)

/-- Helper: a plain-fenced text strips to itself. -/
theorem pyStrip_wrapPlain_self (t : String) :
    pyStrip (wrapPlainFence t) = wrapPlainFence t := by
  have hp2 : ("```").data = [btick, btick, btick] := by decide
  have hwd : (wrapPlainFence t).data =
      ("```").data ++ ('\n' :: (t.data ++ ('\n' :: [btick, btick, btick]))) := by
    show (("```\n").data ++ t.data) ++ ("\n```").data = _
    rw [show ("```\n").data = btick :: btick :: btick :: '\n' :: [] from by decide,
        show ("\n```").data = '\n' :: btick :: btick :: btick :: [] from by decide, hp2]
    simp
  apply String.ext
  show pyStripL (wrapPlainFence t).data = (wrapPlainFence t).data
  rw [hwd, hp2]
  have hsh : [btick, btick, btick] ++
      ('\n' :: (t.data ++ ('\n' :: [btick, btick, btick]))) =
      btick :: ([btick, btick, '\n'] ++ t.data ++ ['\n', btick, btick]) ++ [btick] := by
    simp
  rw [hsh]
  exact pyStripL_self_of_ends btick btick _ (by decide) (by decide)

/-- Helper: a json-fenced text is never the empty string. -/
theorem wrapJson_ne_empty (t : String) : (wrapJsonFence t == "") = false := by
  have : wrapJsonFence t ≠ "" := by
    intro hcon
    have hd := congrArg String.data hcon
    have hwd : (wrapJsonFence t).data =
        ("```json\n").data ++ t.data ++ ("\n```").data := by
      show (("```json\n").data ++ t.data) ++ ("\n```").data = _
      simp
    rw [hwd, show ("```json\n").data =
        btick :: btick :: btick :: 'j' :: 's' :: 'o' :: 'n' :: '\n' :: [] from by decide]
      at hd
    simp at hd
  simpa using this

/-- Helper: a plain-fenced text is never the empty string. -/
theorem wrapPlain_ne_empty (t : String) : (wrapPlainFence t == "") = false := by
  have : wrapPlainFence t ≠ "" := by
    intro hcon
    have hd := congrArg String.data hcon
    have hwd : (wrapPlainFence t).data =
        ("```\n").data ++ t.data ++ ("\n```").data := by
      show (("```\n").data ++ t.data) ++ ("\n```").data = _
      simp
    rw [hwd, show ("```\n").data = btick :: btick :: btick :: '\n' :: [] from by decide]
      at hd
    simp at hd
  simpa using this

/-- C6 amended: for every raw output text containing no backtick character, parsing the text wrapped in a json or plain markdown fence yields the same QuestionSet as parsing the unwrapped text. The restriction is necessary: the cleaner removes every occurrence of the fence markers anywhere in the text, not only a leading and trailing fence (see the counterexample). -/
theorem fence_parse_no_backtick (t : String) (h : btick ∉ t.data) :
    parseQuizResponse (wrapJsonFence t) = parseQuizResponse t ∧
    parseQuizResponse (wrapPlainFence t) = parseQuizResponse t := by
  have hj := cleanQuizContent_fence_json t h
  have hp := cleanQuizContent_fence_plain t h
  have hn := cleanQuizContent_no_bt t h
  have hempty : parseQuizMCQ ("") = none := by decide
  constructor
  · simp only [parseQuizResponse, pyStrip_wrapJson_self, wrapJson_ne_empty t,
      Bool.false_eq_true, if_false, hj, hn]
    by_cases hts : (pyStrip t == "") = true
    · have hte : pyStrip t = "" := eq_of_beq hts
      rw [hts]
      simp [hte, hempty]
    · simp only [Bool.not_eq_true] at hts
      rw [hts]
      simp
  · simp only [parseQuizResponse, pyStrip_wrapPlain_self, wrapPlain_ne_empty t,
      Bool.false_eq_true, if_false, hp, hn]
    by_cases hts : (pyStrip t == "") = true
    · have hte : pyStrip t = "" := eq_of_beq hts
      rw [hts]
      simp [hte, hempty]
    · simp only [Bool.not_eq_true] at hts
      rw [hts]
      simp
/-- C6 counterexample: a valid quiz JSON whose title contains three backticks. Both the wrapped and the unwrapped text parse to a QuestionSet, but the wrapped parse loses the backticks inside the title (str.replace removes every occurrence), so the two QuestionSets differ. -/
theorem fence_replace_counterexample :
    (parseQuizResponse tFence).map (fun q => q.title) = some ("a```b") ∧
    (parseQuizResponse (wrapJsonFence tFence)).map (fun q => q.title) = some ("ab") ∧
    (parseQuizResponse (wrapJsonFence tFence) == parseQuizResponse tFence) = false := by
  decide

/-- C6 witness: the amended statement applied to a concrete backtick-free quiz JSON. -/
theorem fence_parse_no_backtick_witness :
    parseQuizResponse (wrapJsonFence tNoTick) = parseQuizResponse tNoTick ∧
    parseQuizResponse (wrapPlainFence tNoTick) = parseQuizResponse tNoTick :=
  fence_parse_no_backtick tNoTick (by decide)

end AdaptiveQuiz
